import Mathlib

/-!
The selfup master / slave self-upgrade supervisor.

A shallow embedding of `selfup.go`, `proc_master.go` and `proc_slave.go`.

Conventions of the embedding.
* Go strings are Lean strings; a nil func / interface value is `none`.
* `time.Duration` and `int` are `Int`; `time.Time` is a `Nat` clock reading.
* Everything the operating system or a user callback decides (errors of
  system calls, the bytes a fetcher streams, the output of a spawned child,
  which arm of a `select` fires) is an explicit input record of the
  function that consumes it.
* Externally visible actions (signals sent, channel sends, goroutines
  started, processes spawned, calls of user callbacks) are recorded in an
  ordered list of `Effect`s; `os.Exit` is recorded as the exit code and
  stops the function.
* The two rendezvous channels are unbuffered.  A receive is the input that
  says which arm of a `select` fires.  Whether the send on `restarted` in
  `fork` is ever received is an input of `fork`, which blocks when it is not;
  the send on `descriptorsReleased` in `handleSignal` is recorded as an
  effect.  Log output is left out.
-/

namespace Selfup

/-! Signals -/

/-- An `os.Signal` value: its number and the text its `String()` method returns. -/
structure Signal where
  num : Nat
  name : String
  deriving DecidableEq, Repr

/-- Modelled from the spec: the platform file declaring `SIGUSR1` is absent from the
sources; the spec calls it the reserved "user signal 1" (Linux number 10). -/
def SIGUSR1 : Signal := ⟨10, "user defined signal 1"⟩

/-- Modelled from the spec: the platform file declaring `SIGUSR2` is absent from the
sources; the spec calls it the agreed "user signal 2", default restart signal. -/
def SIGUSR2 : Signal := ⟨12, "user defined signal 2"⟩

/-- The standard library value `os.Interrupt` (SIGINT). -/
def osInterrupt : Signal := ⟨2, "interrupt"⟩

/-- The standard library value `os.Kill` (SIGKILL). -/
def osKill : Signal := ⟨9, "killed"⟩

/-- The signal delivered to a parent when a child terminates (SIGCHLD). -/
def SIGCHLD : Signal := ⟨17, "child exited"⟩

/-! Configuration (selfup.go) -/

/-- One `time.Second` in nanoseconds. -/
def timeSecond : Int := 1000000000

/-- The struct `Config`.  Function and interface fields are handles: `none` is nil. -/
structure Config where
  Required : Bool
  Program : Option Nat
  Address : String
  Addresses : List String
  RestartSignal : Option Signal
  TerminateTimeout : Int
  MinFetchInterval : Int
  PreUpgrade : Option Nat
  NoRestart : Bool
  NoRestartAfterFetch : Bool
  Fetcher : Option Nat
  deriving DecidableEq, Repr

/-- The defaults part of `validate` (selfup.go lines 72-80). -/
def validateDefaults (c : Config) : Config :=
  let c1 := if c.RestartSignal = none then { c with RestartSignal := some SIGUSR2 } else c
  let c2 := if c1.TerminateTimeout ≤ 0 then { c1 with TerminateTimeout := 30 * timeSecond } else c1
  if c2.MinFetchInterval ≤ 0 then { c2 with MinFetchInterval := 1 * timeSecond } else c2

/-- The function `validate`: the config after the call (it is mutated in place through
the pointer; the two error returns come before any assignment) and the returned error
(`none` is nil). -/
def validate (c : Config) : Config × Option String :=
  if c.Program = none then
    (c, some "selfup.Config.Program required")
  else if c.Address ≠ "" then
    if c.Addresses.length > 0 then
      (c, some "selfup.Config.Address and Addresses cant both be set")
    else
      (validateDefaults { c with Addresses := [c.Address] }, none)
  else if c.Addresses.length > 0 then
    (validateDefaults { c with Address := c.Addresses.headD "" }, none)
  else
    (validateDefaults c, none)

/-! Process environment and strconv -/

/-- The environment variable names declared in selfup.go. -/
def envSlaveID : String := "OVERSEER_SLAVE_ID"
def envIsSlave : String := "OVERSEER_IS_SLAVE"
def envNumFDs : String := "OVERSEER_NUM_FDS"
def envBinID : String := "OVERSEER_BIN_ID"
def envBinPath : String := "OVERSEER_BIN_PATH"
def envBinCheck : String := "OVERSEER_BIN_CHECK"
def envBinCheckLegacy : String := "GO_UPGRADE_BIN_CHECK"

/-- Split an environment entry `KEY=VALUE` at its first `=`; an entry without `=`
names no variable. -/
def splitKV : List Char → Option (List Char × List Char)
  | [] => none
  | c :: cs => if c = '=' then some ([], cs) else (splitKV cs).map (fun p => (c :: p.1, p.2))

/-- The lookup `os.Getenv` in a process started with the entry list `env`: when a name
occurs more than once the last entry is the one the child sees (os/exec keeps the last
of duplicate keys); an unset name reads as the empty string. -/
def Getenv (env : List String) (key : String) : String :=
  match (env.reverse.filterMap (fun s => splitKV s.data)).find? (fun p => p.1 = key.data) with
  | some p => String.mk p.2
  | none => ""

/-- The decimal digit character of `d < 10`. -/
def digitChar (d : Nat) : Char := Char.ofNat (48 + d)

/-- Decimal digits of `n`, most significant first; `fuel` bounds the number of digits. -/
def natDigits : Nat → Nat → List Char
  | 0, _ => []
  | fuel + 1, n =>
    if n < 10 then [digitChar n] else natDigits fuel (n / 10) ++ [digitChar (n % 10)]

/-- The standard library function `strconv.Itoa`. -/
def Itoa (i : Int) : String :=
  if i < 0 then String.mk ('-' :: natDigits (i.natAbs + 1) i.natAbs)
  else String.mk (natDigits (i.natAbs + 1) i.natAbs)

/-- Read a run of decimal digits into the accumulator; any other character is an error. -/
def parseDigits : List Char → Nat → Option Nat
  | [], acc => some acc
  | c :: cs, acc =>
    if c.isDigit then parseDigits cs (acc * 10 + (c.toNat - 48)) else none

/-- The standard library function `strconv.Atoi` for a 64-bit `int`: an optional sign,
at least one digit, nothing else, and the value in range; `none` is the error. -/
def Atoi (s : String) : Option Int :=
  let neg : Bool := s.data.head? = some '-'
  let ds : List Char :=
    if s.data.head? = some '-' ∨ s.data.head? = some '+' then s.data.tail else s.data
  if ds = [] then none
  else
    match parseDigits ds 0 with
    | none => none
    | some n =>
      let v : Int := if neg then -(n : Int) else (n : Int)
      if -(2 : Int) ^ 63 ≤ v ∧ v < (2 : Int) ^ 63 then some v else none

/-! Entry dispatcher (selfup.go) -/

/-- The function `sanityCheck`: whether a check was performed, and what it printed to
standard output. -/
def sanityCheck (env : List String) : Bool × String :=
  if Getenv env envBinCheck ≠ "" then (true, Getenv env envBinCheck)
  else if Getenv env envBinCheckLegacy ≠ "" then (true, Getenv env envBinCheckLegacy)
  else (false, "")

/-- The value stored in `currentProcess`: a master or a slave over the validated config. -/
inductive Proc where
  | master (c : Config)
  | slave (c : Config)
  deriving DecidableEq, Repr

/-- What `runErr` does before its tail call `currentProcess.run()`: the config after
`validate`, the text printed to standard output, the process object created (`none`
when `runErr` returns before creating one, so that neither `master.run` nor
`slave.run`, the only caller of `Program` below `runErr`, is started), and the error
returned in that case. -/
structure RunErrOut where
  c : Config
  stdout : String
  currentProcess : Option Proc
  err : Option String
  deriving DecidableEq, Repr

/-- The function `runErr`.  `supported` is the platform constant and `goos` the value
of `runtime.GOOS`; both come from platform files absent from the sources and are
parameters. -/
def runErr (supported : Bool) (goos : String) (env : List String) (c : Config) : RunErrOut :=
  if !supported then
    ⟨c, "", none, some ("os (" ++ goos ++ ") not supported")⟩
  else
    let v := validate c
    if v.2 ≠ none then ⟨v.1, "", none, v.2⟩
    else if (sanityCheck env).1 then
      ⟨v.1, (sanityCheck env).2, none, none⟩
    else if Getenv env envIsSlave = "1" then
      ⟨v.1, "", some (Proc.slave v.1), none⟩
    else
      ⟨v.1, "", some (Proc.master v.1), none⟩

/-! Master process (proc_master.go) -/

/-- An open `*os.File`, named by the descriptor number it has in its owner. -/
structure File where
  fd : Nat
  deriving DecidableEq, Repr

/-- A started operating-system process (`*os.Process`). -/
structure Process where
  pid : Nat
  deriving DecidableEq, Repr

/-- The fields of `*exec.Cmd` the program sets or reads.  `Process` is `none` until
`Start` has succeeded. -/
structure Cmd where
  Path : String
  Env : List String
  ExtraFiles : List File
  Process : Option Process
  deriving DecidableEq, Repr

/-- Externally visible actions of the master, in the order they happen. -/
inductive Effect where
  /-- Call `mp.slaveCmd.Process.Signal(s)` (the argument is an interface, `none` is nil). -/
  | signalChild (s : Option Signal)
  /-- Statement `go mp.triggerRestart()`. -/
  | goTriggerRestart
  /-- Send `mp.descriptorsReleased <- true`. -/
  | sendDescriptorsReleased
  /-- Send `mp.restarted <- true`. -/
  | sendRestarted
  /-- Call `cmd.Start()` on the command built by `fork`. -/
  | startChild (cmd : Cmd)
  /-- Call `mp.Fetcher.Fetch` with the current hash. -/
  | fetcherFetch (hash : String)
  /-- Open the temp binary with create and truncate. -/
  | openTmp (path : String)
  /-- Call `chmod(tmpBin, mp.binPerms)`. -/
  | chmodTmp (perms : Nat)
  /-- Call `chown(tmpBin, uid, gid)`. -/
  | chownTmp
  /-- Call `mp.Config.PreUpgrade(tmpBinPath)`. -/
  | preUpgrade (path : String)
  /-- Run the candidate binary with the check token in its environment. -/
  | sanityChild (path : String) (token : String)
  /-- Call `overwrite(dst, src)`. -/
  | overwrite (dst src : String)
  /-- Deferred `os.Remove(tmpBinPath)`. -/
  | removeTmp (path : String)
  deriving DecidableEq, Repr

/-- The struct `master`.  The two channels carry no state of their own (they are
rendezvous points): sends on them are recorded as effects, receives are inputs. -/
structure Master where
  Config : Config
  slaveID : Int
  slaveCmd : Option Cmd
  slaveExtraFiles : List File
  binPath : String
  tmpBinPath : String
  binPerms : Nat
  binHash : String
  restarting : Bool
  restartedAt : Nat
  awaitingUSR1 : Bool
  signalledAt : Nat
  printCheckUpdate : Bool
  deriving DecidableEq, Repr

/-- Result of a master method: the state after it, the effects it performed in order,
and the code passed to `os.Exit` when it terminated the process. -/
structure MOut where
  mp : Master
  effects : List Effect
  exit : Option Int
  deriving DecidableEq, Repr

/-- Whether the master has a child whose process has been started:
`mp.slaveCmd != nil && mp.slaveCmd.Process != nil`. -/
def Master.hasProcess (mp : Master) : Bool :=
  match mp.slaveCmd with
  | none => false
  | some cmd => cmd.Process.isSome

/-- The method `master.sendSignal`.  `ok` is whether `Process.Signal` returns nil. -/
def Master.sendSignal (mp : Master) (ok : Bool) (s : Option Signal) : MOut :=
  if mp.hasProcess then
    if ok then ⟨mp, [Effect.signalChild s], none⟩
    else ⟨mp, [Effect.signalChild s], some 1⟩
  else ⟨mp, [], none⟩

/-- The method `master.handleSignal`.  `ok` is whether a proxied `Process.Signal`
returns nil. -/
def Master.handleSignal (mp : Master) (ok : Bool) (s : Signal) : MOut :=
  if some s = mp.Config.RestartSignal then
    ⟨mp, [Effect.goTriggerRestart], none⟩
  else if s.name = "child exited" then
    ⟨mp, [], none⟩
  else if mp.awaitingUSR1 ∧ s = SIGUSR1 then
    ⟨{ mp with awaitingUSR1 := false }, [Effect.sendDescriptorsReleased], none⟩
  else if mp.hasProcess then
    mp.sendSignal ok (some s)
  else if s = osInterrupt then
    ⟨mp, [], some 1⟩
  else
    ⟨mp, [], none⟩

/-- Which arm of the `select` in `triggerRestart` fires. -/
inductive RestartArm where
  /-- A value arrives on `mp.restarted` before the timer. -/
  | restarted
  /-- The timer `time.After(mp.TerminateTimeout)` fires first. -/
  | timeout
  deriving DecidableEq, Repr

/-- What the surroundings decide during one call of `triggerRestart`. -/
structure RestartIn where
  /-- Reading of `time.Now()`. -/
  now : Nat
  /-- Whether signalling the child with the restart signal returns nil. -/
  signalOk : Bool
  /-- Which arm of the `select` fires. -/
  arm : RestartArm
  /-- Whether signalling the child with `os.Kill` returns nil. -/
  killOk : Bool
  deriving DecidableEq, Repr

/-- The method `master.triggerRestart`. -/
def Master.triggerRestart (mp : Master) (i : RestartIn) : MOut :=
  if mp.restarting then
    ⟨mp, [], none⟩
  else if mp.slaveCmd = none ∨ mp.restarting then
    ⟨mp, [], none⟩
  else
    let mp1 := { mp with restarting := true, awaitingUSR1 := true, signalledAt := i.now }
    let r1 := mp1.sendSignal i.signalOk mp1.Config.RestartSignal
    match r1.exit with
    | some code => ⟨r1.mp, r1.effects, some code⟩
    | none =>
      match i.arm with
      | RestartArm.restarted => ⟨r1.mp, r1.effects, none⟩
      | RestartArm.timeout =>
        let r2 := r1.mp.sendSignal i.killOk (some osKill)
        ⟨r2.mp, r1.effects ++ r2.effects, r2.exit⟩

/-- The error value `cmd.Wait()` returns. -/
inductive WaitErr where
  /-- The child exited with status 0: nil. -/
  | nil
  /-- An `*exec.ExitError`; `status` is the raw `syscall.WaitStatus` behind `Sys()`,
  `none` when `Sys()` holds no wait status. -/
  | exitError (status : Option Nat)
  /-- Any other error. -/
  | other
  deriving DecidableEq, Repr

/-- The standard library method `syscall.WaitStatus.ExitStatus` (Linux encoding): the
second byte when the low seven bits say "exited", otherwise -1. -/
def ExitStatus (w : Nat) : Int :=
  if w % 128 = 0 then ((w / 256 % 256 : Nat) : Int) else -1

/-- The exit code `fork` computes from the result of `cmd.Wait()` (lines 395-403). -/
def exitCode : WaitErr → Int
  | WaitErr.nil => 0
  | WaitErr.exitError (some w) => ExitStatus w
  | WaitErr.exitError none => 1
  | WaitErr.other => 1

/-- Which arm of the `select` in `fork` fires. -/
inductive ForkEvent where
  /-- The value `err` arrives on `cmdwait`: the child has exited. -/
  | childExit (err : WaitErr)
  /-- A value arrives on `mp.descriptorsReleased`. -/
  | descriptorsReleased
  deriving DecidableEq, Repr

/-- What the surroundings decide during one call of `fork`. -/
structure ForkIn where
  /-- Value of `os.Environ()`. -/
  environ : List String
  /-- Whether `cmd.Start()` returns nil. -/
  startOk : Bool
  /-- Text of the error `cmd.Start()` returns when it fails. -/
  startErr : String
  /-- The started process. -/
  pid : Nat
  /-- Reading of `time.Now()`. -/
  now : Nat
  /-- Whether the send `mp.restarted <- true` (line 383) is ever received.  The channel
  is unbuffered and its only receiver is the `select` of `triggerRestart`: the send
  completes when a `triggerRestart` is in that `select` (or enters it later), and never
  when the one that started the restart has already left it by timeout. -/
  restartedTaken : Bool
  /-- What the other goroutines of the master (signal handler, `triggerRestart`,
  `fetch`) do to the shared state while `fork` blocks in its `select`. -/
  concurrent : Master → Master
  /-- Which arm of the `select` fires. -/
  event : ForkEvent

/-- Result of `fork` and `forkLoop`: as `MOut`, with the returned error, and whether
the call never returns because it is blocked in the send on `mp.restarted`. -/
structure FOut where
  mp : Master
  effects : List Effect
  exit : Option Int
  err : Option String
  blocked : Bool
  deriving DecidableEq, Repr

/-- The environment `fork` gives the child (lines 362-367), for the already incremented
slave counter. -/
def Master.childEnv (mp : Master) (environ : List String) : List String :=
  environ ++ [envBinID ++ "=" ++ mp.binHash] ++ [envBinPath ++ "=" ++ mp.binPath]
    ++ [envSlaveID ++ "=" ++ Itoa mp.slaveID] ++ [envIsSlave ++ "=1"]
    ++ [envNumFDs ++ "=" ++ Itoa (mp.slaveExtraFiles.length : Int)]

/-- The command `fork` builds (lines 356-375), before `Start`. -/
def Master.childCmd (mp : Master) (i : ForkIn) : Cmd :=
  ⟨mp.binPath, { mp with slaveID := mp.slaveID + 1 }.childEnv i.environ, mp.slaveExtraFiles, none⟩

/-- The master state after the assignments `fork` makes following a successful `Start`
(lines 359-382): the new command is the active one, the counter is incremented, and a
restart that was in progress is marked complete.  It is the state in which `fork`
sends on `mp.restarted` (when a restart was in progress) and then enters its `select`. -/
def Master.forkSpawned (mp : Master) (i : ForkIn) : Master :=
  let mp2 := { mp with
    slaveID := mp.slaveID + 1,
    slaveCmd := some { mp.childCmd i with Process := some ⟨i.pid⟩ } }
  if mp2.restarting then { mp2 with restartedAt := i.now, restarting := false } else mp2

/-- The method `master.fork`.  When a restart was in progress and nobody receives the
send on `mp.restarted`, the call blocks in that send (line 383) with `restarting`
already cleared: it never waits on the child, never exits and never returns. -/
def Master.fork (mp : Master) (i : ForkIn) : FOut :=
  if !i.startOk then
    ⟨{ mp with slaveID := mp.slaveID + 1, slaveCmd := some (mp.childCmd i) },
      [Effect.startChild (mp.childCmd i)], none,
      some ("Failed to start slave process: " ++ i.startErr), false⟩
  else if mp.restarting && !i.restartedTaken then
    ⟨mp.forkSpawned i, [Effect.startChild (mp.childCmd i)], none, none, true⟩
  else
    let eff := if mp.restarting then [Effect.startChild (mp.childCmd i), Effect.sendRestarted]
      else [Effect.startChild (mp.childCmd i)]
    let mp4 := i.concurrent (mp.forkSpawned i)
    match i.event with
    | ForkEvent.childExit err =>
      if mp4.Config.NoRestart || !mp4.restarting then
        ⟨mp4, eff, some (exitCode err), none, false⟩
      else ⟨mp4, eff, none, none, false⟩
    | ForkEvent.descriptorsReleased => ⟨mp4, eff, none, none, false⟩

/-- The method `master.forkLoop`, run for as many iterations as inputs are supplied:
it stops when `fork` returns an error, exits the process or blocks, and otherwise calls
`fork` again.  With the inputs used up the loop is still running (no exit, no error). -/
def Master.forkLoop (mp : Master) : List ForkIn → FOut
  | [] => ⟨mp, [], none, none, false⟩
  | i :: rest =>
    let r := mp.fork i
    if r.exit.isSome || r.err.isSome || r.blocked then r
    else
      let r2 := Master.forkLoop r.mp rest
      ⟨r2.mp, r.effects ++ r2.effects, r2.exit, r2.err, r2.blocked⟩

/-! The upgrade engine: `master.fetch` -/

/-- The file system: the content of the file at each path, `none` where there is none. -/
abbrev FS := String → Option (List Nat)

/-- The file system with the entry at `p` replaced. -/
def FS.write (fs : FS) (p : String) (v : Option (List Nat)) : FS :=
  fun q => if q = p then v else fs q

/-- Modelled from the spec: the function `overwrite` is in a platform file absent from
the sources; the spec says it is an atomic replace (a rename on POSIX), so on success
the destination holds the content of the source and the source is gone, and on failure
nothing changes.  `ok` is whether it returns nil. -/
def overwrite (fs : FS) (ok : Bool) (dst src : String) : FS :=
  if ok then (fs.write dst (fs src)).write src none else fs

/-- The stream a fetcher returns: the bytes it delivers, and whether it then fails with
a read error instead of ending. -/
structure Reader where
  data : List Nat
  fails : Bool
  deriving DecidableEq, Repr

/-- What the surroundings decide during one call of `fetch`. -/
structure FetchIn where
  /-- Whether `Fetcher.Fetch` returns an error. -/
  fetchErr : Bool
  /-- The reader `Fetcher.Fetch` returns, `none` for nil. -/
  reader : Option Reader
  /-- Whether opening the temp binary succeeds. -/
  openOk : Bool
  /-- Whether every write to the temp binary succeeds. -/
  writeOk : Bool
  chmodOk : Bool
  chownOk : Bool
  /-- Whether `tmpBin.Stat()` succeeds. -/
  statOk : Bool
  /-- Whether `os.Stat(tmpBinPath)` succeeds. -/
  statPathOk : Bool
  /-- Whether the `PreUpgrade` callback, when called, returns nil. -/
  preUpgradeOk : Bool
  /-- The token `token()` generates. -/
  tokenIn : String
  /-- Whether `cmd.CombinedOutput()` returns a nil error. -/
  sanityOk : Bool
  /-- The combined output of the candidate binary. -/
  tokenOut : String
  /-- Whether `overwrite` returns nil. -/
  overwriteOk : Bool
  /-- Inputs of the call of `triggerRestart`. -/
  restart : RestartIn
  deriving DecidableEq, Repr

/-- Result of `fetch`: as `MOut`, with the file system after the call. -/
structure FetchOut where
  mp : Master
  fs : FS
  effects : List Effect
  exit : Option Int

/-- The lower-case hexadecimal digit character of `d < 16`. -/
def hexChar (d : Nat) : Char := if d < 10 then Char.ofNat (48 + d) else Char.ofNat (87 + d)

/-- Hexadecimal digits of `n`, most significant first; `fuel` bounds their number. -/
def hexDigits : Nat → Nat → List Char
  | 0, _ => []
  | fuel + 1, n =>
    if n < 16 then [hexChar n] else hexDigits fuel (n / 16) ++ [hexChar (n % 16)]

/-- The digest string of `fetch` (lines 250-251): `fmt.Sprintf("%x", hash.Sum64())`
over the bytes teed into the hash.  The 64-bit hash function `xxh64` belongs to a module
absent from the sources and is a parameter. -/
def digest (xxh64 : List Nat → Nat) (data : List Nat) : String :=
  String.mk (hexDigits 16 (xxh64 data % 2 ^ 64))

/-- The return paths of `fetch` after the temp binary was opened: the deferred function
removes the temp binary. -/
def fetchReturn (mp : Master) (fs : FS) (tmpBinPath : String) (effects : List Effect) :
    FetchOut :=
  ⟨mp, fs.write tmpBinPath none, effects ++ [Effect.removeTmp tmpBinPath], none⟩

/-- The method `master.fetch`.  `tmpBinPath` is the package variable of that name, `fs`
the file system before the call. -/
def Master.fetch (mp : Master) (xxh64 : List Nat → Nat) (tmpBinPath : String) (i : FetchIn)
    (fs : FS) : FetchOut :=
  if mp.restarting then ⟨mp, fs, [], none⟩
  else if i.fetchErr then ⟨mp, fs, [Effect.fetcherFetch mp.binHash], none⟩
  else
    match i.reader with
    | none => ⟨{ mp with printCheckUpdate := false }, fs, [Effect.fetcherFetch mp.binHash], none⟩
    | some rd =>
      let mp1 := { mp with printCheckUpdate := true }
      let e1 := [Effect.fetcherFetch mp.binHash, Effect.openTmp tmpBinPath]
      if !i.openOk then ⟨mp1, fs, e1, none⟩
      else
        let fs1 := fs.write tmpBinPath (some rd.data)
        if rd.fails || !i.writeOk then fetchReturn mp1 fs1 tmpBinPath e1
        else if mp1.binHash = digest xxh64 rd.data then fetchReturn mp1 fs1 tmpBinPath e1
        else if !i.chmodOk then
          fetchReturn mp1 fs1 tmpBinPath (e1 ++ [Effect.chmodTmp mp1.binPerms])
        else
          let e2 := e1 ++ [Effect.chmodTmp mp1.binPerms, Effect.chownTmp]
          if !i.chownOk then fetchReturn mp1 fs1 tmpBinPath e2
          else if !i.statOk then fetchReturn mp1 fs1 tmpBinPath e2
          else if !i.statPathOk then fetchReturn mp1 fs1 tmpBinPath e2
          else
            let e3 := if mp1.Config.PreUpgrade.isSome then e2 ++ [Effect.preUpgrade tmpBinPath]
              else e2
            if mp1.Config.PreUpgrade.isSome && !i.preUpgradeOk then
              fetchReturn mp1 fs1 tmpBinPath e3
            else
              let e4 := e3 ++ [Effect.sanityChild tmpBinPath i.tokenIn]
              if !i.sanityOk then fetchReturn mp1 fs1 tmpBinPath e4
              else if i.tokenIn ≠ i.tokenOut then fetchReturn mp1 fs1 tmpBinPath e4
              else
                let e5 := e4 ++ [Effect.overwrite mp1.binPath tmpBinPath]
                let fs2 := overwrite fs1 i.overwriteOk mp1.binPath tmpBinPath
                if !i.overwriteOk then fetchReturn mp1 fs2 tmpBinPath e5
                else
                  let mp2 := { mp1 with binHash := digest xxh64 rd.data }
                  if mp2.Config.NoRestartAfterFetch then fetchReturn mp2 fs2 tmpBinPath e5
                  else
                    let r := mp2.triggerRestart i.restart
                    match r.exit with
                    | some code => ⟨r.mp, fs2, e5 ++ r.effects, some code⟩
                    | none => fetchReturn r.mp fs2 tmpBinPath (e5 ++ r.effects)

/-! Slave process (proc_slave.go) -/

/-- A `*selfupListener`: the listener made by `net.FileListener` from the inherited
descriptor `fd`, wrapped by `newOverseerListener`. -/
structure Listener where
  fd : Nat
  deriving DecidableEq, Repr

/-- A channel that is nil, made and open, or closed. -/
inductive Chan where
  | nil
  | opened
  | closed
  deriving DecidableEq, Repr

/-- The struct `State` handed to the program. -/
structure State where
  Enabled : Bool
  ID : String
  StartedAt : Nat
  Listener : Option Listener
  Listeners : List (Option Selfup.Listener)
  Address : String
  Addresses : List String
  GracefulShutdown : Chan
  BinPath : String
  deriving DecidableEq, Repr

/-- The struct `slave`. -/
structure Slave where
  Config : Config
  id : String
  listeners : List (Option Listener)
  masterPid : Nat
  masterProc : Option Process
  state : State
  deriving DecidableEq, Repr

/-- The zero value of `State`. -/
def State.zero : State := ⟨false, "", 0, none, [], "", [], Chan.nil, ""⟩

/-- The value `&slave{Config: c}` created by `runErr`. -/
def Slave.new (c : Selfup.Config) : Slave := ⟨c, "", [], 0, none, State.zero⟩

/-- Externally visible actions of the slave, in the order they happen. -/
inductive SEffect where
  /-- Call `signal.Notify(signals, sp.Config.RestartSignal)` and start the goroutine
  that waits for the signal. -/
  | watchSignal (s : Option Signal)
  /-- Call `signal.Stop(signals)`. -/
  | stopSignal
  /-- Statement `close(sp.state.GracefulShutdown)`. -/
  | closeGracefulShutdown
  /-- Call `l.release(timeout)` on a listener. -/
  | release (l : Option Listener) (timeout : Int)
  /-- Call `sp.masterProc.Signal(s)`. -/
  | signalMaster (s : Signal)
  /-- Start the goroutine that exits with code 1 after the timeout. -/
  | goDeathTimer (timeout : Int)
  /-- Call `sp.Config.Program(&sp.state)`. -/
  | program (state : State)
  deriving DecidableEq, Repr

/-- Result of a slave method: the state after it, the effects in order, the returned
error, and whether the method panicked. -/
structure SOut where
  sp : Slave
  effects : List SEffect
  err : Option String
  panicked : Bool
  deriving DecidableEq, Repr

/-- What the surroundings decide during `slave.run`. -/
structure SlaveIn where
  /-- The environment of the process. -/
  env : List String
  /-- Reading of `time.Now()`. -/
  now : Nat
  /-- The parent process id. -/
  ppid : Nat
  /-- Whether `watchParent` returns nil. -/
  watchParentOk : Bool
  /-- Whether `net.FileListener` succeeds on the file of a descriptor. -/
  fileListenerOk : Nat → Bool

/-- The loop of `initFileDescriptors` (lines 93-102) with `k` iterations left at index
`i`: the slice after the loop, and the index whose descriptor could not be inherited. -/
def adoptLoop (ok : Nat → Bool) : Nat → Nat → List (Option Listener) →
    List (Option Listener) × Option Nat
  | 0, _, ls => (ls, none)
  | k + 1, i, ls =>
    if ok (3 + i) then adoptLoop ok k (i + 1) (ls.set i (some ⟨3 + i⟩))
    else (ls, some i)

/-- The method `slave.initFileDescriptors`. -/
def Slave.initFileDescriptors (sp : Slave) (i : SlaveIn) : SOut :=
  match Atoi (Getenv i.env envNumFDs) with
  | none => ⟨sp, [], some ("invalid " ++ envNumFDs ++ " integer"), false⟩
  | some numFDs =>
    if numFDs < 0 then ⟨sp, [], none, true⟩
    else
      let r := adoptLoop i.fileListenerOk numFDs.toNat 0 (List.replicate numFDs.toNat none)
      let sp1 := { sp with listeners := r.1, state := { sp.state with Listeners := r.1 } }
      match r.2 with
      | some k => ⟨sp1, [], some ("failed to inherit file descriptor: " ++ Itoa k), false⟩
      | none =>
        if sp1.state.Listeners.length > 0 then
          ⟨{ sp1 with state := { sp1.state with Listener := sp1.state.Listeners.headD none } },
            [], none, false⟩
        else ⟨sp1, [], none, false⟩

/-- Modelled from the spec: the method `watchParent` is absent from the sources; the
spec says it watches the liveness of the parent.  It records the parent process, which
`watchSignal` and `triggerRestart` signal through `sp.masterProc`; `ok` is whether it
returns nil. -/
def Slave.watchParent (sp : Slave) (ppid : Nat) (ok : Bool) : Slave :=
  if ok then { sp with masterPid := ppid, masterProc := some ⟨ppid⟩ }
  else { sp with masterPid := ppid }

/-- The method `slave.run`. -/
def Slave.run (sp : Slave) (i : SlaveIn) : SOut :=
  let sp1 := { sp with
    id := Getenv i.env envSlaveID,
    state := { sp.state with
      Enabled := true,
      ID := Getenv i.env envBinID,
      StartedAt := i.now,
      Address := sp.Config.Address,
      Addresses := sp.Config.Addresses,
      GracefulShutdown := Chan.opened,
      BinPath := Getenv i.env envBinPath } }
  let sp2 := sp1.watchParent i.ppid i.watchParentOk
  if !i.watchParentOk then ⟨sp2, [], some "master process", false⟩
  else
    let r := sp2.initFileDescriptors i
    if r.err.isSome || r.panicked then r
    else
      ⟨r.sp, [SEffect.watchSignal r.sp.Config.RestartSignal, SEffect.program r.sp.state],
        none, false⟩

/-- The goroutine started by `slave.watchSignal`, from the receipt of the restart
signal on (lines 113-137). -/
def Slave.watchSignalHandler (sp : Slave) : SOut :=
  let sp1 := { sp with state := { sp.state with GracefulShutdown := Chan.closed } }
  let e0 := [SEffect.stopSignal, SEffect.closeGracefulShutdown]
  let e1 :=
    if sp1.listeners.length > 0 then
      sp1.listeners.map (fun l => SEffect.release l sp1.Config.TerminateTimeout)
        ++ (if !sp1.Config.NoRestart then [SEffect.signalMaster SIGUSR1] else [])
    else []
  ⟨sp1, e0 ++ e1 ++ [SEffect.goDeathTimer sp1.Config.TerminateTimeout], none, false⟩

/-! Example inputs -/

/-- A validated config with a program and no addresses. -/
def exConfig : Config :=
  ⟨false, some 0, "", [], some SIGUSR2, 30000000000, 1000000000, none, false, false, none⟩

/-- A master with a running child (pid 42), two listening descriptors, installed at
`/srv/app` with hash `ab`, not restarting. -/
def exMaster : Master :=
  ⟨exConfig, 1, some ⟨"/srv/app", [], [⟨7⟩, ⟨8⟩], some ⟨42⟩⟩, [⟨7⟩, ⟨8⟩], "/srv/app", "",
    493, "ab", false, 0, false, 0, false⟩

/-- A call of `fork` whose child starts and then exits with wait status 768 (exit
status 3) while nothing else touches the master. -/
def exForkExit : ForkIn :=
  ⟨["PATH=/bin"], true, "", 43, 5, false, id,
    ForkEvent.childExit (WaitErr.exitError (some 768))⟩

/-- A stand-in for the 64-bit hash: the sum of the bytes. -/
def exHash (data : List Nat) : Nat := data.sum

/-- A call of `fetch` in which every step succeeds: the fetcher streams the bytes 1, 2,
3 and the candidate echoes the token. -/
def exFetchOk : FetchIn :=
  ⟨false, some ⟨[1, 2, 3], false⟩, true, true, true, true, true, true, true, "c0ffee", true,
    "c0ffee", true, ⟨9, true, RestartArm.restarted, true⟩⟩

/-- A file system holding only the installed binary. -/
def exFS : FS := fun p => if p = "/srv/app" then some [9, 9] else none

/-- The child of the example master: started with the environment `fork` builds, its
parent alive, every inherited descriptor a listening socket. -/
def exSlaveIn : SlaveIn :=
  ⟨(exMaster.childCmd exForkExit).Env, 11, 1, true, fun _ => true⟩

/-- A master that has not spawned anything yet. -/
def exMasterFresh : Master :=
  ⟨exConfig, 0, none, [], "/srv/app", "", 493, "ab", false, 0, false, 0, false⟩

/-- A call of `fork` in which `cmd.Start()` fails. -/
def exForkFail : ForkIn :=
  ⟨["PATH=/bin"], false, "exec format error", 0, 0, false, id,
    ForkEvent.descriptorsReleased⟩

/-- A call of `fork` during whose wait a restart is triggered (the flags are set by
`triggerRestart` in another goroutine) before the child exits with status 0. -/
def exForkRestart : ForkIn :=
  ⟨["PATH=/bin"], true, "", 43, 5, false,
    fun m => { m with restarting := true, awaitingUSR1 := true, signalledAt := 6 },
    ForkEvent.childExit WaitErr.nil⟩

/-- The example master with a `PreUpgrade` callback configured. -/
def exMasterPre : Master :=
  { exMaster with Config := { exConfig with PreUpgrade := some 0 } }

/-- A call of `fetch` in which the fetcher streams zero bytes, every system call and
`PreUpgrade` succeed, and running the empty candidate fails with no output. -/
def exFetchEmpty : FetchIn :=
  ⟨false, some ⟨[], false⟩, true, true, true, true, true, true, true, "c0ffee", false,
    "", true, ⟨9, true, RestartArm.restarted, true⟩⟩

/-- The first call of `fork` of a restart that ends by child exit: the child starts;
while `fork` waits, the restart signal arrives (`handleSignal` starts `triggerRestart`,
which sets the flags and signals the child); the child, which holds no listener and so
sends no SIGUSR1, exits with status 0. -/
def exForkTriggered : ForkIn :=
  ⟨["PATH=/bin"], true, "", 43, 5, false,
    fun m => ((m.handleSignal true SIGUSR2).mp.triggerRestart
      ⟨6, true, RestartArm.restarted, true⟩).mp,
    ForkEvent.childExit WaitErr.nil⟩

/-- The next call of `fork`: the successor starts and the send on `restarted` is
received by the `triggerRestart` still in its `select`; while `fork` waits, a SIGUSR1
from outside arrives at the master; the `select` then fires on `descriptorsReleased`. -/
def exForkStray : ForkIn :=
  ⟨["PATH=/bin"], true, "", 44, 9, true, fun m => (m.handleSignal true SIGUSR1).mp,
    ForkEvent.descriptorsReleased⟩

/-- A third call of `fork`, undisturbed, whose child exits with status 0. -/
def exForkThird : ForkIn :=
  ⟨["PATH=/bin"], true, "", 45, 12, false, id, ForkEvent.childExit WaitErr.nil⟩

/-- The first call of `fork` of a restart that ends by timeout: the child starts; while
`fork` waits, the restart signal arrives and `triggerRestart` signals the child, which
ignores it; the timer fires, the child is sent SIGKILL and its wait status is 9
(killed by signal 9). -/
def exForkKilled : ForkIn :=
  ⟨["PATH=/bin"], true, "", 43, 5, false,
    fun m => ((m.handleSignal true SIGUSR2).mp.triggerRestart
      ⟨6, true, RestartArm.timeout, true⟩).mp,
    ForkEvent.childExit (WaitErr.exitError (some 9))⟩

/-- The next call of `fork` after that restart: the successor starts, no
`triggerRestart` is waiting on `restarted`, and the successor later exits with wait
status 768 (exit status 3). -/
def exForkBlocked : ForkIn :=
  ⟨["PATH=/bin"], true, "", 44, 40, false, id,
    ForkEvent.childExit (WaitErr.exitError (some 768))⟩

/-! Theorems -/

/-! Configuration -/

/-- The config `validateDefaults` returns, field by field. -/
theorem validateDefaults_eq (c : Config) :
    validateDefaults c =
      { c with
        RestartSignal := if c.RestartSignal = none then some SIGUSR2 else c.RestartSignal,
        TerminateTimeout := if c.TerminateTimeout ≤ 0 then 30 * 1000000000 else c.TerminateTimeout,
        MinFetchInterval := if c.MinFetchInterval ≤ 0 then 1000000000 else c.MinFetchInterval } := by
  unfold validateDefaults timeSecond
  by_cases h1 : c.RestartSignal = none <;> by_cases h2 : c.TerminateTimeout ≤ 0 <;>
    by_cases h3 : c.MinFetchInterval ≤ 0 <;> simp [h1, h2, h3]

/-- C4: `validate` returns an error exactly when `Program` is nil, or `Address` is
non-empty and `Addresses` is non-empty as well. -/
theorem validate_error_iff (c : Config) :
    (validate c).2 ≠ none ↔ (c.Program = none ∨ (c.Address ≠ "" ∧ c.Addresses ≠ [])) := by
  unfold validate
  by_cases hp : c.Program = none
  · simp [hp]
  · by_cases ha : c.Address = ""
    · cases hl : c.Addresses <;> simp [hp, ha]
    · cases hl : c.Addresses <;> simp [hp, ha]

/-- C5: when `validate` succeeds, the config it leaves behind differs from the input
only by the synthesised address field and the three defaults: `Addresses` is
`[Address]` when `Address` was set, `Address` is the first of `Addresses` when only
those were set, `RestartSignal` is SIGUSR2 when it was nil, `TerminateTimeout` is 30
seconds when it was not positive, `MinFetchInterval` is 1 second when it was not
positive; set fields and all other fields are unchanged. -/
theorem validate_result (c : Config) (h : (validate c).2 = none) :
    (c.Address ≠ "" → (validate c).1.Addresses = [c.Address]) ∧
    (c.Address = "" → (validate c).1.Addresses = c.Addresses) ∧
    (∀ a rest, c.Address = "" → c.Addresses = a :: rest → (validate c).1.Address = a) ∧
    (c.Address ≠ "" ∨ c.Addresses = [] → (validate c).1.Address = c.Address) ∧
    (c.RestartSignal = none → (validate c).1.RestartSignal = some SIGUSR2) ∧
    (c.RestartSignal ≠ none → (validate c).1.RestartSignal = c.RestartSignal) ∧
    (c.TerminateTimeout ≤ 0 → (validate c).1.TerminateTimeout = 30 * 1000000000) ∧
    (0 < c.TerminateTimeout → (validate c).1.TerminateTimeout = c.TerminateTimeout) ∧
    (c.MinFetchInterval ≤ 0 → (validate c).1.MinFetchInterval = 1000000000) ∧
    (0 < c.MinFetchInterval → (validate c).1.MinFetchInterval = c.MinFetchInterval) ∧
    (validate c).1.Required = c.Required ∧
    (validate c).1.Program = c.Program ∧
    (validate c).1.PreUpgrade = c.PreUpgrade ∧
    (validate c).1.NoRestart = c.NoRestart ∧
    (validate c).1.NoRestartAfterFetch = c.NoRestartAfterFetch ∧
    (validate c).1.Fetcher = c.Fetcher := by
  have hd := validateDefaults_eq
  unfold validate at h ⊢
  by_cases hp : c.Program = none
  · simp [hp] at h
  · by_cases ha : c.Address = ""
    · cases hl : c.Addresses with
      | nil =>
        simp only [hp, ha, hl, hd, if_false, List.length_nil, lt_self_iff_false, gt_iff_lt]
        refine ⟨?_, ?_, ?_, ?_, ?_, ?_, ?_, ?_, ?_, ?_, ?_, ?_, ?_, ?_, ?_, ?_⟩ <;>
          intros <;> (try split_ifs) <;> first | rfl | omega | simp_all
      | cons a rest =>
        simp only [hp, ha, hl, hd, if_false, if_true, List.length_cons, gt_iff_lt,
          Nat.zero_lt_succ, List.headD_cons]
        refine ⟨?_, ?_, ?_, ?_, ?_, ?_, ?_, ?_, ?_, ?_, ?_, ?_, ?_, ?_, ?_, ?_⟩ <;>
          intros <;> (try split_ifs) <;> first | rfl | omega | simp_all
    · cases hl : c.Addresses with
      | nil =>
        simp only [hp, ha, hl, hd, if_false, if_true, ne_eq, not_false_eq_true,
          List.length_nil, lt_self_iff_false, gt_iff_lt]
        refine ⟨?_, ?_, ?_, ?_, ?_, ?_, ?_, ?_, ?_, ?_, ?_, ?_, ?_, ?_, ?_, ?_⟩ <;>
          intros <;> (try split_ifs) <;> first | rfl | omega | simp_all
      | cons a rest => simp [hp, ha, hl] at h

/-- C5, witness: a config with only `Address` set and no defaults given. -/
theorem validate_result_witness :
    (validate ⟨false, some 0, "127.0.0.1:80", [], none, 0, 0, none, false, false, none⟩).1 =
      ⟨false, some 0, "127.0.0.1:80", ["127.0.0.1:80"], some SIGUSR2, 30000000000, 1000000000,
        none, false, false, none⟩ ∧
    (validate ⟨false, some 0, "127.0.0.1:80", [], none, 0, 0, none, false, false, none⟩).1.Addresses
      = ["127.0.0.1:80"] :=
  ⟨by decide,
   (validate_result ⟨false, some 0, "127.0.0.1:80", [], none, 0, 0, none, false, false, none⟩
      (by decide)).1 (by decide)⟩

/-! Entry dispatcher -/

/-- C3, as stated, fails: on a platform where `supported` is false, with a valid config
and the check variable set to `abc123`, `runErr` prints nothing and returns the
"not supported" error. -/
theorem runErr_sanity_unsupported :
    (validate ⟨false, some 0, "", [], none, 0, 0, none, false, false, none⟩).2 = none ∧
    Getenv ["OVERSEER_BIN_CHECK=abc123"] envBinCheck = "abc123" ∧
    (runErr false "plan9" ["OVERSEER_BIN_CHECK=abc123"]
      ⟨false, some 0, "", [], none, 0, 0, none, false, false, none⟩).stdout = "" ∧
    (runErr false "plan9" ["OVERSEER_BIN_CHECK=abc123"]
      ⟨false, some 0, "", [], none, 0, 0, none, false, false, none⟩).err
      = some "os (plan9) not supported" := by
  decide

/-- C3, amended: on a supported platform, for every valid config and every environment
in which the check variable has a non-empty value `t` (or it is empty and the legacy
variable has the non-empty value `t`), `runErr` prints exactly `t`, returns nil and
creates neither master nor slave (so no program body runs); with both variables
non-empty the value of the check variable is printed. -/
theorem runErr_sanity (goos : String) (env : List String) (c : Config) (t : String)
    (hv : (validate c).2 = none) (ht : t ≠ "")
    (h : Getenv env envBinCheck = t ∨
      (Getenv env envBinCheck = "" ∧ Getenv env envBinCheckLegacy = t)) :
    (runErr true goos env c).stdout = t ∧
    (runErr true goos env c).err = none ∧
    (runErr true goos env c).currentProcess = none := by
  unfold runErr sanityCheck
  rcases h with h | ⟨h1, h2⟩
  · simp [hv, h, ht]
  · simp [hv, h1, h2, ht]

/-- C3, witness: both variables set, the check variable wins. -/
theorem runErr_sanity_witness :
    (runErr true "linux" ["GO_UPGRADE_BIN_CHECK=old", "OVERSEER_BIN_CHECK=abc123"]
      ⟨false, some 0, "", [], none, 0, 0, none, false, false, none⟩).stdout = "abc123" :=
  (runErr_sanity "linux" ["GO_UPGRADE_BIN_CHECK=old", "OVERSEER_BIN_CHECK=abc123"]
    ⟨false, some 0, "", [], none, 0, 0, none, false, false, none⟩ "abc123"
    (by decide) (by decide) (Or.inl (by decide))).1

/-! Signal handling and restart -/

/-- The child-process test of `handleSignal` and `sendSignal`, spelled out. -/
theorem hasProcess_iff (mp : Master) :
    mp.hasProcess = true ↔ ∃ cmd p, mp.slaveCmd = some cmd ∧ cmd.Process = some p := by
  unfold Master.hasProcess
  cases h : mp.slaveCmd with
  | none => simp
  | some cmd => cases hp : cmd.Process <;> simp [hp]

/-- C7: `handleSignal` performs the first matching row of the table and nothing else:
(1) the restart signal starts `triggerRestart` in a goroutine; (2) the "child exited"
signal does nothing; (3) SIGUSR1 while `awaitingUSR1` clears the flag and sends on
`descriptorsReleased`; (4) with a started child the signal is forwarded to it, and the
master exits with code 1 when forwarding fails; (5) SIGINT exits the master with code
1; (6) anything else is discarded. -/
theorem handleSignal_table (mp : Master) (ok : Bool) (s : Signal) :
    (some s = mp.Config.RestartSignal →
      mp.handleSignal ok s = ⟨mp, [Effect.goTriggerRestart], none⟩) ∧
    (some s ≠ mp.Config.RestartSignal → s.name = "child exited" →
      mp.handleSignal ok s = ⟨mp, [], none⟩) ∧
    (some s ≠ mp.Config.RestartSignal → s.name ≠ "child exited" →
      mp.awaitingUSR1 = true → s = SIGUSR1 →
      mp.handleSignal ok s =
        ⟨{ mp with awaitingUSR1 := false }, [Effect.sendDescriptorsReleased], none⟩) ∧
    (some s ≠ mp.Config.RestartSignal → s.name ≠ "child exited" →
      ¬ (mp.awaitingUSR1 = true ∧ s = SIGUSR1) →
      (∃ cmd p, mp.slaveCmd = some cmd ∧ cmd.Process = some p) →
      mp.handleSignal ok s =
        ⟨mp, [Effect.signalChild (some s)], if ok then none else some 1⟩) ∧
    (some s ≠ mp.Config.RestartSignal → s.name ≠ "child exited" →
      ¬ (mp.awaitingUSR1 = true ∧ s = SIGUSR1) →
      ¬ (∃ cmd p, mp.slaveCmd = some cmd ∧ cmd.Process = some p) →
      s = osInterrupt →
      mp.handleSignal ok s = ⟨mp, [], some 1⟩) ∧
    (some s ≠ mp.Config.RestartSignal → s.name ≠ "child exited" →
      ¬ (mp.awaitingUSR1 = true ∧ s = SIGUSR1) →
      ¬ (∃ cmd p, mp.slaveCmd = some cmd ∧ cmd.Process = some p) →
      s ≠ osInterrupt →
      mp.handleSignal ok s = ⟨mp, [], none⟩) := by
  rw [← hasProcess_iff]
  unfold Master.handleSignal Master.sendSignal
  refine ⟨?_, ?_, ?_, ?_, ?_, ?_⟩
  · intro h1; simp [h1]
  · intro h1 h2; simp [h1, h2]
  · intro h1 h2 h3 h4
    rw [if_neg h1, if_neg h2, if_pos ⟨h3, h4⟩]
  · intro h1 h2 h3 h4
    rw [if_neg h1, if_neg h2, if_neg h3, if_pos h4, if_pos h4]
    cases ok <;> simp
  · intro h1 h2 h3 h4 h5
    rw [if_neg h1, if_neg h2, if_neg h3, if_neg h4, if_pos h5]
  · intro h1 h2 h3 h4 h5
    rw [if_neg h1, if_neg h2, if_neg h3, if_neg h4, if_neg h5]

/-- C9, as stated, fails in two states.  First: `fork` has failed to start the child, so
the master holds a command without a process (`slaveCmd` set, `Process` nil) and is not
restarting; `triggerRestart` sets `restarting` and sends no signal at all.  Second: the
child is running but signalling it fails; the master exits with code 1 after the one
restart signal, and SIGKILL is never sent although the timeout arm was the one to fire. -/
theorem triggerRestart_no_signal :
    (exMasterFresh.fork exForkFail).mp.slaveCmd ≠ none ∧
    (exMasterFresh.fork exForkFail).mp.restarting = false ∧
    ((exMasterFresh.fork exForkFail).mp.triggerRestart
      ⟨7, true, RestartArm.timeout, true⟩).mp.restarting = true ∧
    ((exMasterFresh.fork exForkFail).mp.triggerRestart
      ⟨7, true, RestartArm.timeout, true⟩).effects = [] ∧
    (exMaster.triggerRestart ⟨7, false, RestartArm.timeout, true⟩).effects
      = [Effect.signalChild (some SIGUSR2)] ∧
    (exMaster.triggerRestart ⟨7, false, RestartArm.timeout, true⟩).exit = some 1 := by
  decide

/-- C9, amended: `triggerRestart` changes nothing and sends nothing when `restarting` is
already true or `slaveCmd` is nil.  Otherwise it sets `restarting` and `awaitingUSR1`
and records `signalledAt`; when the child has no started process it sends no signal;
when it has one, it sends the restart signal exactly once, exits the master with code
1 if that fails, and otherwise sends SIGKILL (once, exiting with code 1 if that fails)
exactly when the timeout fires before a notification on `restarted`. -/
theorem triggerRestart_spec (mp : Master) (i : RestartIn) :
    (mp.restarting = true ∨ mp.slaveCmd = none → mp.triggerRestart i = ⟨mp, [], none⟩) ∧
    (mp.restarting = false → mp.slaveCmd ≠ none →
      (mp.triggerRestart i).mp =
        { mp with restarting := true, awaitingUSR1 := true, signalledAt := i.now } ∧
      (¬ (∃ cmd p, mp.slaveCmd = some cmd ∧ cmd.Process = some p) →
        (mp.triggerRestart i).effects = [] ∧ (mp.triggerRestart i).exit = none) ∧
      ((∃ cmd p, mp.slaveCmd = some cmd ∧ cmd.Process = some p) →
        (i.signalOk = false →
          (mp.triggerRestart i).effects = [Effect.signalChild mp.Config.RestartSignal] ∧
          (mp.triggerRestart i).exit = some 1) ∧
        (i.signalOk = true → i.arm = RestartArm.restarted →
          (mp.triggerRestart i).effects = [Effect.signalChild mp.Config.RestartSignal] ∧
          (mp.triggerRestart i).exit = none) ∧
        (i.signalOk = true → i.arm = RestartArm.timeout →
          (mp.triggerRestart i).effects =
            [Effect.signalChild mp.Config.RestartSignal, Effect.signalChild (some osKill)] ∧
          (mp.triggerRestart i).exit = if i.killOk then none else some 1))) := by
  rw [← hasProcess_iff]
  refine ⟨?_, ?_⟩
  · intro h
    unfold Master.triggerRestart
    rcases h with h | h
    · simp [h]
    · simp [h]
  · intro hr hc
    unfold Master.triggerRestart Master.sendSignal
    simp only [hr, hc, or_self, if_false, Bool.false_eq_true]
    have hp : ∀ (a : Master), a.slaveCmd = mp.slaveCmd → a.hasProcess = mp.hasProcess := by
      intro a ha
      unfold Master.hasProcess
      rw [ha]
    cases hh : mp.hasProcess <;> cases hs : i.signalOk <;> cases ha : i.arm <;>
      cases hk : i.killOk <;> simp [Master.sendSignal, hp, hh]

/-! Slave: the restart signal -/

/-- C10, as stated, fails for a slave without inherited listeners: with `NoRestart`
false it closes `GracefulShutdown` and starts the death timer, and SIGUSR1 is not sent
to the master. -/
theorem watchSignalHandler_no_listeners :
    (Slave.mk ⟨false, some 0, "", [], some SIGUSR2, 30000000000, 1000000000, none, false,
        false, none⟩ "1" [] 1 (some ⟨1⟩)
        ⟨true, "ab", 0, none, [], "", [], Chan.opened, "/app"⟩).Config.NoRestart = false ∧
    (Slave.mk ⟨false, some 0, "", [], some SIGUSR2, 30000000000, 1000000000, none, false,
        false, none⟩ "1" [] 1 (some ⟨1⟩)
        ⟨true, "ab", 0, none, [], "", [], Chan.opened, "/app"⟩).watchSignalHandler.effects
      = [SEffect.stopSignal, SEffect.closeGracefulShutdown, SEffect.goDeathTimer 30000000000] ∧
    SEffect.signalMaster SIGUSR1 ∉
      (Slave.mk ⟨false, some 0, "", [], some SIGUSR2, 30000000000, 1000000000, none, false,
        false, none⟩ "1" [] 1 (some ⟨1⟩)
        ⟨true, "ab", 0, none, [], "", [], Chan.opened, "/app"⟩).watchSignalHandler.effects := by
  decide

/-- C10, amended: on the restart signal a slave closes `GracefulShutdown`, calls
`release(TerminateTimeout)` on every listener in order (none when there is no
listener), and sends SIGUSR1 to the master exactly when `NoRestart` is false and it
holds at least one listener. -/
theorem watchSignalHandler_spec (sp : Slave) :
    sp.watchSignalHandler.sp.state.GracefulShutdown = Chan.closed ∧
    SEffect.closeGracefulShutdown ∈ sp.watchSignalHandler.effects ∧
    sp.watchSignalHandler.effects.filter
        (fun e => match e with | SEffect.release _ _ => true | _ => false)
      = sp.listeners.map (fun l => SEffect.release l sp.Config.TerminateTimeout) ∧
    (SEffect.signalMaster SIGUSR1 ∈ sp.watchSignalHandler.effects ↔
      (sp.Config.NoRestart = false ∧ sp.listeners ≠ [])) ∧
    sp.watchSignalHandler.effects.count (SEffect.signalMaster SIGUSR1) ≤ 1 := by
  have hf : ∀ (ls : List (Option Listener)) (t : Int),
      (ls.map (fun l => SEffect.release l t)).filter
        (fun e => match e with | SEffect.release _ _ => true | _ => false)
      = ls.map (fun l => SEffect.release l t) := by
    intro ls t
    induction ls with
    | nil => rfl
    | cons a rest ih => simp [List.filter_cons, ih]
  have hc : ∀ (ls : List (Option Listener)) (t : Int),
      (ls.map (fun l => SEffect.release l t)).count (SEffect.signalMaster SIGUSR1) = 0 := by
    intro ls t
    induction ls with
    | nil => rfl
    | cons a rest ih => simp [List.count_cons, ih]
  unfold Slave.watchSignalHandler
  cases hl : sp.listeners with
  | nil => simp
  | cons a rest =>
    cases hn : sp.Config.NoRestart
    · simp [List.filter_cons, hf, hc, hn, List.count_cons, List.count_append]
    · simp [List.filter_cons, hf, hc, hn, List.count_cons, List.count_append]

/-! fork and forkLoop -/

/-- Every call of `fork` begins by starting the command it built. -/
theorem fork_effects_head (mp : Master) (i : ForkIn) :
    ∃ tail, (mp.fork i).effects = Effect.startChild (mp.childCmd i) :: tail := by
  unfold Master.fork
  cases hs : i.startOk
  · exact ⟨[], by simp⟩
  · cases hr : mp.restarting <;> cases he : i.event <;> simp <;> split_ifs <;> simp

/-- What `fork` does when its child exits before descriptors are released, provided
the call reaches its `select`: no restart was in progress when the child was started,
or the send on `restarted` is received.  Let `m` be the master state at that moment.
If `NoRestart` is set or `restarting` is false in `m`, the master exits with the
child's exit code: 0 for a nil wait error, the exit status of the wait status for an
exit error, 1 for any other error.  Otherwise the master does not exit, `fork` returns
nil and `forkLoop` calls `fork` again, which starts the next child from the binary
path of `m`. -/
theorem fork_select_child_exit (mp : Master) (i : ForkIn) (err : WaitErr)
    (hs : i.startOk = true) (hr : mp.restarting = false ∨ i.restartedTaken = true)
    (he : i.event = ForkEvent.childExit err) :
    (mp.fork i).mp = i.concurrent (mp.forkSpawned i) ∧
    (mp.fork i).blocked = false ∧
    ((i.concurrent (mp.forkSpawned i)).Config.NoRestart = true ∨
        (i.concurrent (mp.forkSpawned i)).restarting = false →
      (mp.fork i).exit = some (exitCode err)) ∧
    ((i.concurrent (mp.forkSpawned i)).Config.NoRestart = false →
        (i.concurrent (mp.forkSpawned i)).restarting = true →
      (mp.fork i).exit = none ∧ (mp.fork i).err = none ∧
      ∀ (j : ForkIn) (rest : List ForkIn), ∃ tail,
        (mp.forkLoop (i :: j :: rest)).effects =
          (mp.fork i).effects ++
            Effect.startChild ((i.concurrent (mp.forkSpawned i)).childCmd j) :: tail ∧
        ((i.concurrent (mp.forkSpawned i)).childCmd j).Path =
          (i.concurrent (mp.forkSpawned i)).binPath) ∧
    exitCode WaitErr.nil = 0 ∧
    (∀ w, exitCode (WaitErr.exitError (some w)) = ExitStatus w) ∧
    exitCode WaitErr.other = 1 := by
  have hnb : ¬ (mp.restarting = true ∧ i.restartedTaken = false) := by
    rintro ⟨h1, h2⟩
    rcases hr with h | h
    · rw [h] at h1; exact Bool.noConfusion h1
    · rw [h] at h2; exact Bool.noConfusion h2
  have hf : mp.fork i =
      if (i.concurrent (mp.forkSpawned i)).Config.NoRestart
          || !(i.concurrent (mp.forkSpawned i)).restarting then
        ⟨i.concurrent (mp.forkSpawned i),
          if mp.restarting then [Effect.startChild (mp.childCmd i), Effect.sendRestarted]
          else [Effect.startChild (mp.childCmd i)], some (exitCode err), none, false⟩
      else
        ⟨i.concurrent (mp.forkSpawned i),
          if mp.restarting then [Effect.startChild (mp.childCmd i), Effect.sendRestarted]
          else [Effect.startChild (mp.childCmd i)], none, none, false⟩ := by
    unfold Master.fork
    simp [hs, he, hnb]
  refine ⟨?_, ?_, ?_, ?_, rfl, fun _ => rfl, rfl⟩
  · rw [hf]; split_ifs <;> rfl
  · rw [hf]; split_ifs <;> rfl
  · intro h
    rw [hf]
    rcases h with h | h <;> simp [h]
  · intro h1 h2
    have hf2 : mp.fork i = ⟨i.concurrent (mp.forkSpawned i),
          if mp.restarting then [Effect.startChild (mp.childCmd i), Effect.sendRestarted]
          else [Effect.startChild (mp.childCmd i)], none, none, false⟩ := by
      rw [hf]; simp [h1, h2]
    refine ⟨by rw [hf2], by rw [hf2], ?_⟩
    intro j rest
    obtain ⟨tail, ht⟩ := fork_effects_head (i.concurrent (mp.forkSpawned i)) j
    have hl : (mp.forkLoop (i :: j :: rest)).effects =
        (mp.fork i).effects ++ ((mp.fork i).mp.forkLoop (j :: rest)).effects := by
      conv_lhs => unfold Master.forkLoop
      simp [hf2]
    have hl2 : ∃ t2, ((i.concurrent (mp.forkSpawned i)).forkLoop (j :: rest)).effects =
        Effect.startChild ((i.concurrent (mp.forkSpawned i)).childCmd j) :: t2 := by
      unfold Master.forkLoop
      simp only
      split_ifs
      · exact ⟨tail, ht⟩
      · refine ⟨tail ++
          (((i.concurrent (mp.forkSpawned i)).fork j).mp.forkLoop rest).effects, ?_⟩
        simp [ht]
    obtain ⟨t2, ht2⟩ := hl2
    refine ⟨t2, ?_, rfl⟩
    rw [hl, hf2]
    simp only
    rw [ht2]

/-- Two calls that reach the `select`: a child that exits with wait status 768 outside
a restart makes the master exit with code 3; a child that exits after a restart was
triggered does not, and `fork` returns nil. -/
theorem fork_select_child_exit_example :
    (exMaster.fork exForkExit).exit = some 3 ∧
    (exMaster.fork exForkRestart).exit = none ∧
    (exMaster.fork exForkRestart).err = none :=
  ⟨(fork_select_child_exit exMaster exForkExit (WaitErr.exitError (some 768)) rfl
      (Or.inl rfl) rfl).2.2.1 (Or.inr rfl),
   ((fork_select_child_exit exMaster exForkRestart WaitErr.nil rfl (Or.inl rfl)
      rfl).2.2.2.1 rfl rfl).1,
   ((fork_select_child_exit exMaster exForkRestart WaitErr.nil rfl (Or.inl rfl)
      rfl).2.2.2.1 rfl rfl).2.1⟩

/-- C8, evaluated after a restart that ends by timeout.  The first `fork` starts child
1; the restart signal triggers a restart; the child ignores it, so `triggerRestart`
leaves its `select` by timeout, sends SIGKILL and returns; the killed child makes
`fork` return nil (`restarting` is true).  The next `fork` starts child 2, clears
`restarting`, and blocks in the send on `restarted`, which nobody receives.  Child 2
then exits with status 3 while `NoRestart` and `restarting` are both false: the master
should exit with code 3, but `fork` never reaches its `select`, so the master neither
exits nor starts another child. -/
theorem fork_blocks_on_restarted :
    ((exMasterFresh.forkSpawned exForkKilled).triggerRestart
        ⟨6, true, RestartArm.timeout, true⟩).effects
      = [Effect.signalChild (some SIGUSR2), Effect.signalChild (some osKill)] ∧
    (exMasterFresh.fork exForkKilled).exit = none ∧
    (exMasterFresh.fork exForkKilled).err = none ∧
    (exMasterFresh.fork exForkKilled).blocked = false ∧
    (exMasterFresh.fork exForkKilled).mp.restarting = true ∧
    exForkBlocked.startOk = true ∧
    exForkBlocked.event = ForkEvent.childExit (WaitErr.exitError (some 768)) ∧
    exitCode (WaitErr.exitError (some 768)) = 3 ∧
    ((exMasterFresh.fork exForkKilled).mp.fork exForkBlocked).mp.Config.NoRestart = false ∧
    ((exMasterFresh.fork exForkKilled).mp.fork exForkBlocked).mp.restarting = false ∧
    ((exMasterFresh.fork exForkKilled).mp.fork exForkBlocked).blocked = true ∧
    ((exMasterFresh.fork exForkKilled).mp.fork exForkBlocked).exit = none ∧
    (exMasterFresh.forkLoop [exForkKilled, exForkBlocked, exForkThird]).blocked = true ∧
    (exMasterFresh.forkLoop [exForkKilled, exForkBlocked, exForkThird]).exit = none ∧
    ((exMasterFresh.forkLoop [exForkKilled, exForkBlocked, exForkThird]).effects.filter
      (fun e => match e with | Effect.startChild _ => true | _ => false)).length = 2 := by
  decide

/-! The upgrade engine -/

/-- Writing a path leaves every other path alone. -/
theorem FS.write_ne (fs : FS) (p q : String) (v : Option (List Nat)) (h : q ≠ p) :
    (fs.write p v) q = fs q := by
  simp [FS.write, h]

/-- Writing a path sets it. -/
theorem FS.write_eq (fs : FS) (p : String) (v : Option (List Nat)) :
    (fs.write p v) p = v := by
  simp [FS.write]

/-- The method `triggerRestart` performs nothing but signals to the child, and leaves
the hash and the path of the binary alone. -/
theorem triggerRestart_frame (mp : Master) (i : RestartIn) :
    (∀ e ∈ (mp.triggerRestart i).effects, ∃ s, e = Effect.signalChild s) ∧
    (mp.triggerRestart i).mp.binHash = mp.binHash ∧
    (mp.triggerRestart i).mp.binPath = mp.binPath := by
  unfold Master.triggerRestart
  by_cases hr : mp.restarting = true
  · simp [hr]
  · by_cases hc : mp.slaveCmd = none
    · simp [hr, hc]
    · have hp : ∀ (a : Master), a.slaveCmd = mp.slaveCmd → a.hasProcess = mp.hasProcess := by
        intro a ha
        unfold Master.hasProcess
        rw [ha]
      simp only [hr, hc, or_self, if_false]
      cases hh : mp.hasProcess <;> cases hs : i.signalOk <;> cases ha : i.arm <;>
        cases hk : i.killOk <;> simp [Master.sendSignal, hp, hh]

/-- The two ways a call of `fetch` can go.  Either `overwrite` is reached: then every
check before it has passed, and the hash and the installed file follow the result of
`overwrite`.  Or it is not reached: then the hash and the installed file are as before. -/
theorem fetch_inv (mp : Master) (xxh64 : List Nat → Nat) (tmpBinPath : String)
    (i : FetchIn) (fs : FS) (hne : tmpBinPath ≠ mp.binPath) :
    (Effect.overwrite mp.binPath tmpBinPath ∈ (mp.fetch xxh64 tmpBinPath i fs).effects ∧
      mp.restarting = false ∧ i.fetchErr = false ∧ i.openOk = true ∧
      i.writeOk = true ∧ i.chmodOk = true ∧ i.chownOk = true ∧
      i.statOk = true ∧ i.statPathOk = true ∧
      (mp.Config.PreUpgrade ≠ none → i.preUpgradeOk = true) ∧
      i.sanityOk = true ∧ i.tokenOut = i.tokenIn ∧
      ∃ rd, i.reader = some rd ∧ rd.fails = false ∧ mp.binHash ≠ digest xxh64 rd.data ∧
        (i.overwriteOk = true →
          (mp.fetch xxh64 tmpBinPath i fs).mp.binHash = digest xxh64 rd.data ∧
          (mp.fetch xxh64 tmpBinPath i fs).fs mp.binPath = some rd.data) ∧
        (i.overwriteOk = false →
          (mp.fetch xxh64 tmpBinPath i fs).mp.binHash = mp.binHash ∧
          (mp.fetch xxh64 tmpBinPath i fs).fs mp.binPath = fs mp.binPath)) ∨
    (Effect.overwrite mp.binPath tmpBinPath ∉ (mp.fetch xxh64 tmpBinPath i fs).effects ∧
      (mp.fetch xxh64 tmpBinPath i fs).mp.binHash = mp.binHash ∧
      (mp.fetch xxh64 tmpBinPath i fs).fs mp.binPath = fs mp.binPath) := by
  have hw : ∀ (f : FS) v, (f.write tmpBinPath v) mp.binPath = f mp.binPath :=
    fun f v => FS.write_ne f tmpBinPath mp.binPath v (Ne.symm hne)
  unfold Master.fetch
  by_cases h0 : mp.restarting = true
  · simp [h0]
  by_cases h1 : i.fetchErr = true
  · simp [h0, h1]
  cases hr : i.reader with
  | none => simp [h0, h1]
  | some rd =>
    simp only [h0, h1, if_false]
    by_cases h2 : i.openOk = true
    swap
    · simp [h2]
    by_cases h3 : rd.fails = true
    · simp [h2, h3, fetchReturn, hw]
    by_cases h4 : i.writeOk = true
    swap
    · simp [h2, h3, h4, fetchReturn, hw]
    by_cases h5 : mp.binHash = digest xxh64 rd.data
    · simp [h2, h3, h4, h5, fetchReturn, hw]
    by_cases h6 : i.chmodOk = true
    swap
    · simp [h2, h3, h4, h5, h6, fetchReturn, hw]
    by_cases h7 : i.chownOk = true
    swap
    · simp [h2, h3, h4, h5, h6, h7, fetchReturn, hw]
    by_cases h8 : i.statOk = true
    swap
    · simp [h2, h3, h4, h5, h6, h7, h8, fetchReturn, hw]
    by_cases h9 : i.statPathOk = true
    swap
    · simp [h2, h3, h4, h5, h6, h7, h8, h9, fetchReturn, hw]
    by_cases h10 : (mp.Config.PreUpgrade.isSome && !i.preUpgradeOk) = true
    · right
      cases hpu : mp.Config.PreUpgrade <;>
        simp [h2, h3, h4, h5, h6, h7, h8, h9, hpu, fetchReturn, hw] at h10 ⊢
      simp [h10, hw]
    have h10b : mp.Config.PreUpgrade ≠ none → i.preUpgradeOk = true := by
      intro hp
      cases hpu : mp.Config.PreUpgrade with
      | none => exact absurd hpu hp
      | some f => simpa [hpu] using h10
    by_cases h11 : i.sanityOk = true
    swap
    · right
      cases hpu : mp.Config.PreUpgrade
      · simp [h2, h3, h4, h5, h6, h7, h8, h9, h11, hpu, fetchReturn, hw]
      · simp [h2, h3, h4, h5, h6, h7, h8, h9, h11, hpu, fetchReturn, hw] at h10 ⊢
        simp [h10, hw]
    by_cases h12 : i.tokenIn = i.tokenOut
    swap
    · right
      cases hpu : mp.Config.PreUpgrade
      · simp [h2, h3, h4, h5, h6, h7, h8, h9, h11, h12, hpu, fetchReturn, hw]
      · simp [h2, h3, h4, h5, h6, h7, h8, h9, h11, h12, hpu, fetchReturn, hw] at h10 ⊢
        simp [h10, hw]
    left
    have hpre : (mp.Config.PreUpgrade.isSome && !i.preUpgradeOk) = false := by
      simpa using h10
    have hrf : rd.fails = false := by simpa using h3
    refine ⟨?_, trivial, trivial, h2, h4, h6, h7, h8, h9, h10b, h11, h12.symm, rd, rfl, hrf, h5, ?_, ?_⟩
    · simp only [h2, hrf, h4, h5, h6, h7, h8, h9, hpre, h11, h12, Bool.not_true, Bool.or_self,
        Bool.false_eq_true, if_false, ne_eq, not_true_eq_false, not_false_eq_true]
      cases ho : i.overwriteOk
      · simp [fetchReturn]
      · by_cases hn : mp.Config.NoRestartAfterFetch = true
        · simp [hn, fetchReturn]
        · simp only [hn, if_false, Bool.not_true, Bool.false_eq_true]
          generalize Master.triggerRestart _ i.restart = r
          cases hx : r.exit <;> simp [fetchReturn]
    · intro ho
      simp only [h2, hrf, h4, h5, h6, h7, h8, h9, hpre, h11, h12, ho, Bool.not_true,
        Bool.or_self, Bool.false_eq_true, if_false, ne_eq, not_true_eq_false, not_false_eq_true]
      by_cases hn : mp.Config.NoRestartAfterFetch = true
      · simp [hn, fetchReturn, overwrite, hw, FS.write_eq]
      · simp only [hn, if_false]
        generalize hR : Master.triggerRestart _ i.restart = r
        have hb : r.mp.binHash = digest xxh64 rd.data := by
          rw [← hR]
          exact (triggerRestart_frame _ _).2.1
        cases hx : r.exit <;> simp [fetchReturn, overwrite, hw, FS.write_eq, hb]
    · intro ho
      simp [h2, hrf, h4, h5, h6, h7, h8, h9, hpre, h11, h12, ho, fetchReturn, overwrite, hw]

/-- C1: in every call of `fetch`, if `overwrite` is called on `binPath`, or the file at
`binPath` is not bytewise what it was before the call, then in that call the fetcher
returned a stream without error, the copy to the temp file succeeded, the digest of
the streamed bytes differs from `binHash`, chmod, chown and both stats succeeded,
`PreUpgrade` (when configured) returned nil, and the sanity child exited without error
having printed exactly the fresh token.  So in every other call the file at `binPath`
is left unchanged.  (The temp binary is a file other than the installed one.) -/
theorem fetch_no_clobber (mp : Master) (xxh64 : List Nat → Nat) (tmpBinPath : String)
    (i : FetchIn) (fs : FS) (hne : tmpBinPath ≠ mp.binPath)
    (h : Effect.overwrite mp.binPath tmpBinPath ∈ (mp.fetch xxh64 tmpBinPath i fs).effects ∨
      (mp.fetch xxh64 tmpBinPath i fs).fs mp.binPath ≠ fs mp.binPath) :
    i.fetchErr = false ∧
    (∃ rd, i.reader = some rd ∧ rd.fails = false ∧ mp.binHash ≠ digest xxh64 rd.data) ∧
    i.writeOk = true ∧ i.chmodOk = true ∧ i.chownOk = true ∧
    i.statOk = true ∧ i.statPathOk = true ∧
    (mp.Config.PreUpgrade ≠ none → i.preUpgradeOk = true) ∧
    i.sanityOk = true ∧ i.tokenOut = i.tokenIn := by
  rcases fetch_inv mp xxh64 tmpBinPath i fs hne with h2 | h2
  · obtain ⟨-, -, h1, -, h4, h6, h7, h8, h9, h10, h11, h12, rd, hr, hf, h5, -, -⟩ := h2
    exact ⟨h1, ⟨rd, hr, hf, h5⟩, h4, h6, h7, h8, h9, h10, h11, h12⟩
  · obtain ⟨hm, -, hfs⟩ := h2
    rcases h with h | h
    · exact absurd h hm
    · exact absurd hfs h

/-- C1, witness: a candidate that passes every check is installed; the file at
`/srv/app` changes from the bytes 9, 9 to the streamed bytes, and the checks held. -/
theorem fetch_no_clobber_witness :
    (exMaster.fetch exHash "/tmp/selfup-0011223344556677" exFetchOk exFS).fs "/srv/app"
      ≠ exFS "/srv/app" ∧
    exFetchOk.sanityOk = true ∧ exFetchOk.tokenOut = exFetchOk.tokenIn :=
  ⟨by decide,
   (fetch_no_clobber exMaster exHash "/tmp/selfup-0011223344556677" exFetchOk exFS
      (by decide) (Or.inr (by decide))).2.2.2.2.2.2.2.2⟩

/-- C2: in every call of `fetch`, if `overwrite` is reached and succeeds, then
afterwards `binHash` is the digest of exactly the bytes streamed into the temp file,
and these bytes are the content now at `binPath`; if `overwrite` is not reached or
fails, `binHash` is unchanged.  (The temp binary is a file other than the installed
one.) -/
theorem fetch_binHash (mp : Master) (xxh64 : List Nat → Nat) (tmpBinPath : String)
    (i : FetchIn) (fs : FS) (hne : tmpBinPath ≠ mp.binPath) :
    (Effect.overwrite mp.binPath tmpBinPath ∈ (mp.fetch xxh64 tmpBinPath i fs).effects →
      i.overwriteOk = true →
      ∃ rd, i.reader = some rd ∧
        (mp.fetch xxh64 tmpBinPath i fs).mp.binHash = digest xxh64 rd.data ∧
        (mp.fetch xxh64 tmpBinPath i fs).fs mp.binPath = some rd.data) ∧
    (Effect.overwrite mp.binPath tmpBinPath ∉ (mp.fetch xxh64 tmpBinPath i fs).effects ∨
        i.overwriteOk = false →
      (mp.fetch xxh64 tmpBinPath i fs).mp.binHash = mp.binHash) := by
  rcases fetch_inv mp xxh64 tmpBinPath i fs hne with h | h
  · obtain ⟨hm, -, -, -, -, -, -, -, -, -, -, -, rd, hr, -, -, hok, hfail⟩ := h
    refine ⟨fun _ ho => ⟨rd, hr, (hok ho).1, (hok ho).2⟩, ?_⟩
    intro hc
    rcases hc with hc | hc
    · exact absurd hm hc
    · exact (hfail hc).1
  · obtain ⟨hm, hb, -⟩ := h
    exact ⟨fun hin => absurd hin hm, fun _ => hb⟩

/-- C2, witness: after the accepted update of the example the recorded hash is the
digest of the streamed bytes 1, 2, 3 (their sum 6 in hexadecimal) and the installed
file holds these bytes. -/
theorem fetch_binHash_witness :
    (exMaster.fetch exHash "/tmp/selfup-0011223344556677" exFetchOk exFS).mp.binHash = "6" ∧
    (exMaster.fetch exHash "/tmp/selfup-0011223344556677" exFetchOk exFS).fs "/srv/app"
      = some [1, 2, 3] := by
  obtain ⟨rd, hr, hb, hf⟩ :=
    (fetch_binHash exMaster exHash "/tmp/selfup-0011223344556677" exFetchOk exFS
      (by decide)).1 (by decide) rfl
  have hrd : rd = ⟨[1, 2, 3], false⟩ := by
    have : some rd = some (⟨[1, 2, 3], false⟩ : Reader) := hr.symm.trans rfl
    exact Option.some.inj this
  subst hrd
  exact ⟨hb.trans (by decide), hf⟩

/-! The environment contract between master and slave -/

/-- An entry `KEY=VALUE` whose key has no `=` splits into key and value. -/
theorem splitKV_entry (k v : List Char) (hk : '=' ∉ k) :
    splitKV (k ++ '=' :: v) = some (k, v) := by
  induction k with
  | nil => simp [splitKV]
  | cons c cs ih =>
    have hc : c ≠ '=' := fun h => hk (by simp [h])
    have hcs : '=' ∉ cs := fun h => hk (by simp [h])
    simp [splitKV, hc, ih hcs]

/-- Looking a name up after one more entry was appended: the new entry wins when it
has that name. -/
theorem Getenv_append_entry (env : List String) (s key : String) (k v : List Char)
    (hs : s.data = k ++ '=' :: v) (hk : '=' ∉ k) :
    Getenv (env ++ [s]) key = if k = key.data then String.mk v else Getenv env key := by
  unfold Getenv
  simp only [List.reverse_append, List.reverse_cons, List.reverse_nil, List.nil_append,
    List.singleton_append, List.filterMap_cons, hs, splitKV_entry k v hk, List.find?_cons]
  by_cases h : k = key.data
  · simp [h]
  · simp [h]

/-- Digit characters are digits, with the right value. -/
theorem digitChar_spec (d : Nat) (h : d < 10) :
    (digitChar d).isDigit = true ∧ (digitChar d).toNat - 48 = d ∧ digitChar d ≠ '-' ∧
      digitChar d ≠ '+' := by
  interval_cases d <;> decide

/-- Parsing digits followed by one more character. -/
theorem parseDigits_append (xs : List Char) (c : Char) (acc : Nat) :
    parseDigits (xs ++ [c]) acc =
      (parseDigits xs acc).bind
        (fun a => if c.isDigit then some (a * 10 + (c.toNat - 48)) else none) := by
  induction xs generalizing acc with
  | nil => simp [parseDigits]
  | cons x xs ih =>
    simp only [List.cons_append, parseDigits]
    by_cases hx : x.isDigit = true
    · simp only [hx, if_true]
      exact ih _
    · simp [hx]

/-- Parsing the digits of a number gives the number back. -/
theorem parseDigits_natDigits (fuel n : Nat) (h : n < fuel) :
    parseDigits (natDigits fuel n) 0 = some n := by
  induction fuel generalizing n with
  | zero => omega
  | succ f ih =>
    unfold natDigits
    split_ifs with h10
    · simp [parseDigits, (digitChar_spec n h10).1, (digitChar_spec n h10).2.1]
    · have hd := digitChar_spec (n % 10) (Nat.mod_lt _ (by norm_num))
      rw [parseDigits_append, ih (n / 10) (by omega)]
      simp [hd.1, hd.2.1]
      omega

/-- The digits of a number are a non-empty run that does not begin with a sign. -/
theorem natDigits_head (fuel n : Nat) :
    natDigits (fuel + 1) n ≠ [] ∧ (natDigits (fuel + 1) n).head? ≠ some '-' ∧
      (natDigits (fuel + 1) n).head? ≠ some '+' := by
  induction fuel generalizing n with
  | zero =>
    unfold natDigits
    split_ifs with h10
    · have hd := digitChar_spec n h10
      simp [hd.2.2.1, hd.2.2.2]
    · have hd := digitChar_spec (n % 10) (Nat.mod_lt _ (by norm_num))
      simp [natDigits, hd.2.2.1, hd.2.2.2]
  | succ f ih =>
    unfold natDigits
    split_ifs with h10
    · have hd := digitChar_spec n h10
      simp [hd.2.2.1, hd.2.2.2]
    · obtain ⟨h1, h2, h3⟩ := ih (n / 10)
      cases hl : natDigits (f + 1) (n / 10) with
      | nil => exact absurd hl h1
      | cons c cs =>
        rw [hl] at h2 h3
        simp only [List.head?_cons] at h2 h3
        simp [h2, h3]

/-- Round trip of strconv: `Atoi (Itoa n) = n` for every `n` a Go `int` can hold as a
length. -/
theorem Atoi_Itoa (n : Nat) (h : n < 2 ^ 63) : Atoi (Itoa (n : Int)) = some (n : Int) := by
  obtain ⟨h1, h2, h3⟩ := natDigits_head n n
  have hp := parseDigits_natDigits (n + 1) n (by omega)
  unfold Atoi Itoa
  have hneg : ¬ ((n : Int) < 0) := by omega
  simp only [hneg, if_false, Int.natAbs_ofNat]
  simp only [h2, h3, or_self, if_false, h1, hp, decide_False]
  have hr : -(2 : Int) ^ 63 ≤ (n : Int) ∧ (n : Int) < (2 : Int) ^ 63 := by
    constructor
    · have : (0 : Int) ≤ (n : Int) := Int.ofNat_nonneg n
      have : -(2 : Int) ^ 63 ≤ 0 := by norm_num
      omega
    · exact_mod_cast h
  simp only [Bool.false_eq_true, if_false]
  rw [if_pos hr]

/-- Lookup after appending the entry `k=v`, on strings. -/
theorem Getenv_append_kv (env : List String) (s k v key : String)
    (hs : s.data = k.data ++ '=' :: v.data) (hk : '=' ∉ k.data) :
    Getenv (env ++ [s]) key = if k = key then v else Getenv env key := by
  rw [Getenv_append_entry env s key k.data v.data hs hk]
  by_cases h : k = key
  · simp [h]
  · have h2 : k.data ≠ key.data := fun hd => h (String.ext hd)
    simp [h, h2]

/-- What a child started by `fork` reads from its environment: the five variables the
master appended, and the check variables as they are in the inherited environment. -/
theorem childEnv_lookup (mp : Master) (environ : List String) :
    Getenv (mp.childEnv environ) envBinID = mp.binHash ∧
    Getenv (mp.childEnv environ) envBinPath = mp.binPath ∧
    Getenv (mp.childEnv environ) envSlaveID = Itoa mp.slaveID ∧
    Getenv (mp.childEnv environ) envIsSlave = "1" ∧
    Getenv (mp.childEnv environ) envNumFDs = Itoa (mp.slaveExtraFiles.length : Int) ∧
    Getenv (mp.childEnv environ) envBinCheck = Getenv environ envBinCheck ∧
    Getenv (mp.childEnv environ) envBinCheckLegacy = Getenv environ envBinCheckLegacy := by
  have e1 : ∀ v : String, (envBinID ++ "=" ++ v).data = envBinID.data ++ '=' :: v.data := by
    intro v; simp [String.data_append]
  have e2 : ∀ v : String, (envBinPath ++ "=" ++ v).data = envBinPath.data ++ '=' :: v.data := by
    intro v; simp [String.data_append]
  have e3 : ∀ v : String, (envSlaveID ++ "=" ++ v).data = envSlaveID.data ++ '=' :: v.data := by
    intro v; simp [String.data_append]
  have e4 : (envIsSlave ++ "=1").data = envIsSlave.data ++ '=' :: ("1" : String).data := by
    decide
  have e5 : ∀ v : String, (envNumFDs ++ "=" ++ v).data = envNumFDs.data ++ '=' :: v.data := by
    intro v; simp [String.data_append]
  have k1 : '=' ∉ envBinID.data := by decide
  have k2 : '=' ∉ envBinPath.data := by decide
  have k3 : '=' ∉ envSlaveID.data := by decide
  have k4 : '=' ∉ envIsSlave.data := by decide
  have k5 : '=' ∉ envNumFDs.data := by decide
  unfold Master.childEnv
  refine ⟨?_, ?_, ?_, ?_, ?_, ?_, ?_⟩ <;>
    rw [Getenv_append_kv _ _ _ _ _ (e5 _) k5, Getenv_append_kv _ _ _ _ _ e4 k4,
      Getenv_append_kv _ _ _ _ _ (e3 _) k3, Getenv_append_kv _ _ _ _ _ (e2 _) k2,
      Getenv_append_kv _ _ _ _ _ (e1 _) k1] <;>
    simp +decide

/-- The loop of `initFileDescriptors` when every descriptor can be inherited: slot `j`
receives the listener of descriptor `3 + j`, in order. -/
theorem adoptLoop_all (ok : Nat → Bool) (k i : Nat)
    (hok : ∀ j, j < i + k → ok (3 + j) = true) :
    adoptLoop ok k i
        ((List.range i).map (fun j => some (Listener.mk (3 + j))) ++ List.replicate k none)
      = ((List.range (i + k)).map (fun j => some (Listener.mk (3 + j))), none) := by
  induction k generalizing i with
  | zero => simp [adoptLoop]
  | succ k ih =>
    unfold adoptLoop
    rw [if_pos (hok i (by omega))]
    have hset : (List.map (fun j => some (Listener.mk (3 + j))) (List.range i)
          ++ List.replicate (k + 1) none).set i (some ⟨3 + i⟩)
        = List.map (fun j => some (Listener.mk (3 + j))) (List.range (i + 1))
          ++ List.replicate k none := by
      rw [List.set_append_right _ _ (by simp)]
      simp [List.range_succ, List.replicate_succ]
    rw [hset, ih (i + 1) (fun j hj => hok j (by omega))]
    have hik : i + 1 + k = i + (k + 1) := by omega
    rw [hik]

/-- The method `initFileDescriptors` in a slave whose environment announces `n`
descriptors, all of which can be inherited: the listeners of descriptors 3, 4, ... are
adopted in order and the first is published as `Listener`. -/
theorem initFileDescriptors_ok (sp : Slave) (si : SlaveIn) (n : Nat)
    (hnum : Getenv si.env envNumFDs = Itoa (n : Int)) (hn : n < 2 ^ 63)
    (hfl : ∀ j, j < n → si.fileListenerOk (3 + j) = true) :
    (sp.initFileDescriptors si).err = none ∧
    (sp.initFileDescriptors si).panicked = false ∧
    (sp.initFileDescriptors si).effects = [] ∧
    (sp.initFileDescriptors si).sp.Config = sp.Config ∧
    (sp.initFileDescriptors si).sp.state.Enabled = sp.state.Enabled ∧
    (sp.initFileDescriptors si).sp.state.ID = sp.state.ID ∧
    (sp.initFileDescriptors si).sp.state.BinPath = sp.state.BinPath ∧
    (sp.initFileDescriptors si).sp.state.Listeners =
      (List.range n).map (fun j => some (Listener.mk (3 + j))) ∧
    (0 < n → (sp.initFileDescriptors si).sp.state.Listener = some ⟨3⟩) ∧
    (n = 0 → (sp.initFileDescriptors si).sp.state.Listener = sp.state.Listener) := by
  have hatoi := Atoi_Itoa n hn
  have hloop := adoptLoop_all si.fileListenerOk n 0 (by intro j hj; exact hfl j (by omega))
  simp only [List.range_zero, List.map_nil, List.nil_append, Nat.zero_add] at hloop
  have hnn : ¬ ((n : Int) < 0) := by omega
  unfold Slave.initFileDescriptors
  simp only [hnum, hatoi, hnn, if_false, Int.toNat_ofNat, hloop]
  cases n with
  | zero => simp
  | succ m => simp [List.range_succ_eq_map]

/-- C6: round trip of the environment contract.  Take any master state and any
inherited environment whose check variables read empty, and start a process with the
environment `fork` builds (later entries win).  On a supported platform with a config
that validates, `runErr` dispatches it as a slave; and when `watchParent` succeeds and
each inherited descriptor yields a listener, `slave.run` returns nil and hands the
program a `State` with `Enabled` true, `ID` the master's `binHash`, `BinPath` the
master's `binPath`, exactly `len(slaveExtraFiles)` listeners adopted from descriptors
3, 4, ... in order, and `Listener` the first of them when there is one. -/
theorem env_round_trip (mp : Master) (fi : ForkIn) (goos : String) (c : Config)
    (si : SlaveIn)
    (hcheck : Getenv fi.environ envBinCheck = "" ∧ Getenv fi.environ envBinCheckLegacy = "")
    (hlen : mp.slaveExtraFiles.length < 2 ^ 63)
    (hv : (validate c).2 = none)
    (henv : si.env = (mp.childCmd fi).Env)
    (hwp : si.watchParentOk = true)
    (hfl : ∀ j, j < mp.slaveExtraFiles.length → si.fileListenerOk (3 + j) = true) :
    Effect.startChild (mp.childCmd fi) ∈ (mp.fork fi).effects ∧
    (runErr true goos si.env c).currentProcess = some (Proc.slave (validate c).1) ∧
    ((Slave.new (validate c).1).run si).err = none ∧
    ((Slave.new (validate c).1).run si).panicked = false ∧
    ((Slave.new (validate c).1).run si).sp.state.Enabled = true ∧
    ((Slave.new (validate c).1).run si).sp.state.ID = mp.binHash ∧
    ((Slave.new (validate c).1).run si).sp.state.BinPath = mp.binPath ∧
    ((Slave.new (validate c).1).run si).sp.state.Listeners =
      (List.range mp.slaveExtraFiles.length).map (fun j => some (Listener.mk (3 + j))) ∧
    ((Slave.new (validate c).1).run si).sp.state.Listeners.length =
      mp.slaveExtraFiles.length ∧
    (0 < mp.slaveExtraFiles.length →
      ((Slave.new (validate c).1).run si).sp.state.Listener = some ⟨3⟩) ∧
    SEffect.program ((Slave.new (validate c).1).run si).sp.state ∈
      ((Slave.new (validate c).1).run si).effects := by
  obtain ⟨tail, htail⟩ := fork_effects_head mp fi
  have henv2 : si.env = ({ mp with slaveID := mp.slaveID + 1 } : Master).childEnv fi.environ := by
    rw [henv]; rfl
  obtain ⟨g1, g2, -, g4, g5, g6, g7⟩ :=
    childEnv_lookup ({ mp with slaveID := mp.slaveID + 1 } : Master) fi.environ
  rw [← henv2] at g1 g2 g4 g5 g6 g7
  simp only at g1 g2 g5
  refine ⟨by rw [htail]; simp, ?_, ?_⟩
  · unfold runErr sanityCheck
    simp [hv, g4, g6, g7, hcheck.1, hcheck.2]
  · have hrun : (Slave.new (validate c).1).run si =
        ⟨(((Slave.new (validate c).1).run si).sp),
          [SEffect.watchSignal ((Slave.new (validate c).1).run si).sp.Config.RestartSignal,
            SEffect.program ((Slave.new (validate c).1).run si).sp.state], none, false⟩ ∧
        ((Slave.new (validate c).1).run si).sp.state.Enabled = true ∧
        ((Slave.new (validate c).1).run si).sp.state.ID = mp.binHash ∧
        ((Slave.new (validate c).1).run si).sp.state.BinPath = mp.binPath ∧
        ((Slave.new (validate c).1).run si).sp.state.Listeners =
          (List.range mp.slaveExtraFiles.length).map (fun j => some (Listener.mk (3 + j))) ∧
        (0 < mp.slaveExtraFiles.length →
          ((Slave.new (validate c).1).run si).sp.state.Listener = some ⟨3⟩) := by
      unfold Slave.run
      simp only [hwp, Bool.not_true, Bool.false_eq_true, if_false]
      generalize hsp : Slave.watchParent _ si.ppid true = sp2
      obtain ⟨i1, i2, i3, i4, i5, i6, i7, i8, i9, -⟩ :=
        initFileDescriptors_ok sp2 si mp.slaveExtraFiles.length g5 hlen hfl
      have hs2 : sp2.state.Enabled = true ∧ sp2.state.ID = mp.binHash ∧
          sp2.state.BinPath = mp.binPath := by
        rw [← hsp]
        simp [Slave.watchParent, g1, g2]
      simp only [i1, i2, Option.isSome_none, Bool.or_self, Bool.false_eq_true, if_false]
      exact ⟨trivial, i5.trans hs2.1, i6.trans hs2.2.1, i7.trans hs2.2.2, i8, i9⟩
    obtain ⟨hr, h1, h2, h3, h4, h5⟩ := hrun
    refine ⟨by rw [hr], by rw [hr], h1, h2, h3, h4, ?_, h5, ?_⟩
    · rw [h4]; simp
    · rw [hr]; simp

/-- C6, witness: the child of the example master (hash `ab`, path `/srv/app`, two
descriptors) is a slave whose state carries `ab`, `/srv/app` and the listeners of
descriptors 3 and 4. -/
theorem env_round_trip_witness :
    (runErr true "linux" exSlaveIn.env exConfig).currentProcess
      = some (Proc.slave (validate exConfig).1) ∧
    ((Slave.new (validate exConfig).1).run exSlaveIn).sp.state.ID = "ab" ∧
    ((Slave.new (validate exConfig).1).run exSlaveIn).sp.state.BinPath = "/srv/app" ∧
    ((Slave.new (validate exConfig).1).run exSlaveIn).sp.state.Listeners
      = [some ⟨3⟩, some ⟨4⟩] ∧
    ((Slave.new (validate exConfig).1).run exSlaveIn).sp.state.Listener = some ⟨3⟩ := by
  have h := env_round_trip exMaster exForkExit "linux" exConfig exSlaveIn
    (by decide) (by decide) (by decide) rfl rfl (fun _ _ => rfl)
  exact ⟨h.2.1, h.2.2.2.2.2.1, h.2.2.2.2.2.2.1, h.2.2.2.2.2.2.2.1,
    h.2.2.2.2.2.2.2.2.2.1 (by decide)⟩

/-! The upgrade engine: an empty candidate -/

/-- C11, as stated, fails: for an empty stream whose digest (`0`) differs from `binHash`
(`ab`), with both stats succeeding, `fetch` goes past the stat step: it calls
`PreUpgrade` on the temp binary and spawns the sanity child from it.  The upgrade is
cancelled only there, when running the empty file fails. -/
theorem fetch_empty_reaches_sanity :
    exFetchEmpty.reader = some ⟨[], false⟩ ∧
    exMasterPre.binHash ≠ digest exHash [] ∧
    (exMasterPre.fetch exHash "/tmp/selfup-0011223344556677" exFetchEmpty exFS).effects =
      [Effect.fetcherFetch "ab", Effect.openTmp "/tmp/selfup-0011223344556677",
        Effect.chmodTmp 493, Effect.chownTmp,
        Effect.preUpgrade "/tmp/selfup-0011223344556677",
        Effect.sanityChild "/tmp/selfup-0011223344556677" "c0ffee",
        Effect.removeTmp "/tmp/selfup-0011223344556677"] := by
  decide

/-- C11, amended: for an empty stream whose digest differs from `binHash`, `fetch` tests
only the errors of the two stats, not the size.  When the copy, chmod, chown and both
stats succeed, `PreUpgrade` (when configured) is called on the temp binary and, unless
it returns an error, the sanity child is spawned from the empty file; `overwrite` is
not reached and `binHash` and the file at `binPath` are unchanged whenever `PreUpgrade`
vetoes, the sanity child exits with an error, or it does not print the token. -/
theorem fetch_empty_stream (mp : Master) (xxh64 : List Nat → Nat) (tmpBinPath : String)
    (i : FetchIn) (fs : FS)
    (hres : mp.restarting = false) (hfe : i.fetchErr = false)
    (hrd : i.reader = some ⟨[], false⟩) (hd : mp.binHash ≠ digest xxh64 [])
    (hopen : i.openOk = true) (hwrite : i.writeOk = true) (hchmod : i.chmodOk = true)
    (hchown : i.chownOk = true) (hstat : i.statOk = true) (hstatp : i.statPathOk = true) :
    (mp.Config.PreUpgrade ≠ none →
      Effect.preUpgrade tmpBinPath ∈ (mp.fetch xxh64 tmpBinPath i fs).effects) ∧
    (mp.Config.PreUpgrade = none ∨ i.preUpgradeOk = true →
      Effect.sanityChild tmpBinPath i.tokenIn ∈ (mp.fetch xxh64 tmpBinPath i fs).effects) ∧
    ((mp.Config.PreUpgrade ≠ none ∧ i.preUpgradeOk = false) ∨ i.sanityOk = false ∨
        i.tokenOut ≠ i.tokenIn →
      Effect.overwrite mp.binPath tmpBinPath ∉ (mp.fetch xxh64 tmpBinPath i fs).effects ∧
      (mp.fetch xxh64 tmpBinPath i fs).mp.binHash = mp.binHash ∧
      (tmpBinPath ≠ mp.binPath →
        (mp.fetch xxh64 tmpBinPath i fs).fs mp.binPath = fs mp.binPath)) := by
  have hto : (i.tokenIn = i.tokenOut) ↔ (i.tokenOut = i.tokenIn) := eq_comm
  unfold Master.fetch
  simp only [hres, hfe, hrd, hopen, hwrite, hchmod, hchown, hstat, hstatp, hd,
    Bool.false_eq_true, if_false, Bool.not_true, Bool.or_self, ne_eq, hto]
  cases hpu : mp.Config.PreUpgrade <;> cases hpo : i.preUpgradeOk <;>
    cases hs : i.sanityOk <;> by_cases ht : i.tokenOut = i.tokenIn <;>
    cases ho : i.overwriteOk <;> cases hn : mp.Config.NoRestartAfterFetch <;>
    simp [fetchReturn, overwrite, ht, FS.write]
  all_goals try (
    intro hne
    have hne2 : ¬ mp.binPath = tmpBinPath := fun e => hne e.symm
    simp [hne2])
  all_goals (
    generalize Master.triggerRestart _ i.restart = r
    cases hx : r.exit <;> simp)

/-- C11, witness: the empty candidate of the example reaches the sanity child and leaves
the hash `ab` in place. -/
theorem fetch_empty_stream_witness :
    Effect.preUpgrade "/tmp/selfup-0011223344556677" ∈
      (exMasterPre.fetch exHash "/tmp/selfup-0011223344556677" exFetchEmpty exFS).effects ∧
    Effect.sanityChild "/tmp/selfup-0011223344556677" "c0ffee" ∈
      (exMasterPre.fetch exHash "/tmp/selfup-0011223344556677" exFetchEmpty exFS).effects ∧
    (exMasterPre.fetch exHash "/tmp/selfup-0011223344556677" exFetchEmpty exFS).mp.binHash
      = "ab" :=
  ⟨(fetch_empty_stream exMasterPre exHash "/tmp/selfup-0011223344556677" exFetchEmpty exFS
      rfl rfl rfl (by decide) rfl rfl rfl rfl rfl rfl).1 (by decide),
   (fetch_empty_stream exMasterPre exHash "/tmp/selfup-0011223344556677" exFetchEmpty exFS
      rfl rfl rfl (by decide) rfl rfl rfl rfl rfl rfl).2.1 (Or.inr rfl),
   ((fetch_empty_stream exMasterPre exHash "/tmp/selfup-0011223344556677" exFetchEmpty exFS
      rfl rfl rfl (by decide) rfl rfl rfl rfl rfl rfl).2.2 (Or.inr (Or.inl rfl))).2.1⟩

/-! The restart flags across a restart that ends by child exit -/

/-- C12, evaluated on a restart that ends by child exit.  From a fresh master
(`restarting` and `awaitingUSR1` false): the first `fork` starts a child, the restart
signal triggers a restart (both flags set), the child exits without sending SIGUSR1 and
`fork` returns nil; the next `fork` starts the successor and clears `restarting`, but
`awaitingUSR1` is still true: the state at its `select` has `awaitingUSR1 = true` and
`restarting = false`.  A SIGUSR1 arriving then is taken as the descriptors-released
notice, and `forkLoop` starts a third child although no restart is in progress. -/
theorem awaitingUSR1_outlives_restart :
    exMasterFresh.restarting = false ∧ exMasterFresh.awaitingUSR1 = false ∧
    (exMasterFresh.fork exForkTriggered).exit = none ∧
    (exMasterFresh.fork exForkTriggered).err = none ∧
    (exMasterFresh.fork exForkTriggered).mp.restarting = true ∧
    (exMasterFresh.fork exForkTriggered).mp.awaitingUSR1 = true ∧
    ((exMasterFresh.fork exForkTriggered).mp.forkSpawned exForkStray).restarting = false ∧
    ((exMasterFresh.fork exForkTriggered).mp.forkSpawned exForkStray).awaitingUSR1 = true ∧
    (((exMasterFresh.fork exForkTriggered).mp.forkSpawned exForkStray).handleSignal true
      SIGUSR1).effects = [Effect.sendDescriptorsReleased] ∧
    ((exMasterFresh.forkLoop [exForkTriggered, exForkStray, exForkThird]).effects.filter
      (fun e => match e with | Effect.startChild _ => true | _ => false)).length = 3 ∧
    (exMasterFresh.forkLoop [exForkTriggered, exForkStray, exForkThird]).exit = some 0 := by
  decide

end Selfup
